import Mathlib

/-!
Verification development for the chatbot backend (`src/unnamed/part_000`).

The JavaScript source is shallowly embedded: pure helpers become Lean
functions, the per-identity chat history becomes an explicit list
transformation, the external model (Gemini) becomes an oracle parameter,
and JS `Date` parsing / locale formatting become explicit function
parameters (`parseTime`, `dateParts`, `fmtDate`), since those depend on
the runtime environment.  String scanning is modelled over `List Char`
with structural recursion so that concrete inputs evaluate inside the
kernel.  JS falsiness of strings (`undefined`, `null`, `""`) is modelled
by `Option String` plus an emptiness test; JS object-key insertion order
is modelled by ordered association lists.
-/

/-- Whitespace test used by the `\s` regex class and `String.trim` calls in
the source (space, newline, tab, carriage return cover all inputs that occur
here). -/
def isWsChar (c : Char) : Bool :=
  c = ' ' || c = '\n' || c = '\t' || c = '\r'

/-- Trim leading and trailing whitespace from a character list. -/
def trimCharList (l : List Char) : List Char :=
  ((l.dropWhile isWsChar).reverse.dropWhile isWsChar).reverse

/-- Model of JavaScript `String.prototype.trim` (restricted to the
whitespace characters occurring in this source). -/
def jsTrim (s : String) : String :=
  String.mk (trimCharList s.data)

/-- Fuel-driven splitter on character lists: splits at every occurrence of
`sep`, like JavaScript `String.prototype.split` with a non-empty string
separator.  Structural recursion on the fuel so concrete inputs reduce in
the kernel. -/
def splitGo (sep : List Char) : Nat → List Char → List Char → List (List Char)
  | 0, acc, _ => [acc.reverse]
  | _ + 1, acc, [] => [acc.reverse]
  | fuel + 1, acc, c :: rest =>
    if sep.isPrefixOf (c :: rest) then
      acc.reverse :: splitGo sep fuel [] (List.drop (sep.length - 1) rest)
    else splitGo sep fuel (c :: acc) rest

/-- Model of JavaScript `s.split(sep)` for a non-empty literal separator. -/
def jsSplitOn (s sep : String) : List String :=
  (splitGo sep.data (s.data.length + 1) [] s.data).map String.mk

/-- Substring test on character lists. -/
def listContainsSub (pat : List Char) : List Char → Bool
  | [] => pat.isEmpty
  | c :: rest => pat.isPrefixOf (c :: rest) || listContainsSub pat rest

/-- Model of JavaScript `s.includes(pat)` for the non-empty literal
patterns used in the source. -/
def strIncludes (s pat : String) : Bool :=
  listContainsSub pat.data s.data

/-- Model of JavaScript `Array.prototype.join(sep)`. -/
def joinSep (sep : String) : List String → String
  | [] => ""
  | [x] => x
  | x :: y :: xs => x ++ sep ++ joinSep sep (y :: xs)

/-- Model of JavaScript `String(n).padStart(2, '0')` for a natural
number. -/
def pad2 (n : Nat) : String :=
  let s := toString n
  if s.length < 2 then "0" ++ s else s

/-- JS truthiness of an optional string: `undefined`, `null` and `""` are
falsy, every other string is truthy. -/
def truthyStr : Option String → Bool
  | none => false
  | some s => !s.isEmpty

/-- JS truthiness of an optional number (0 is falsy). -/
def truthyNum : Option Nat → Bool
  | none => false
  | some n => n != 0

/-- Model of the JS expression `o || fallback` for an optional string
`o`. -/
def chooseTruthy (o : Option String) (fallback : String) : String :=
  match o with
  | some s => if s.isEmpty then fallback else s
  | none => fallback

/-- Value of `Math.round((completed / total) * 100)` guarded by
`total > 0 ? _ : 0`, the completion-rate pattern used throughout the
source, computed over exact integers: for `t > 0`,
`round_half_up(100 * c / t) = (200 * c + t) / (2 * t)` in natural-number
division (the task counts are small enough that JS float arithmetic is
exact on them). -/
def jsRoundedRate (completed total : Nat) : Nat :=
  if total = 0 then 0 else (200 * completed + total) / (2 * total)

/-- Distinct elements of a list keeping first occurrences in order: the
key order of a JS object built by insertion. -/
def dedupFirst : List String → List String
  | [] => []
  | x :: xs => x :: dedupFirst (xs.filter fun y => !(y = x : Bool))
termination_by l => l.length
decreasing_by
  simp only [List.length_cons]
  exact Nat.lt_succ_of_le (List.length_filter_le _ _)

/-- One step of building a JS object keyed by strings: if the key is
present, update its value with `upd`; otherwise append `(key, upd ini)` at
the end (JS objects preserve insertion order for string keys). -/
def bumpWith (upd : β → β) (ini : β) (key : String) : List (String × β) → List (String × β)
  | [] => [(key, upd ini)]
  | kv :: rest =>
    if kv.1 = key then (kv.1, upd kv.2) :: rest else kv :: bumpWith upd ini key rest

/-- Build a JS object by one pass over `items`: group by `keyOf` in
insertion order, folding each item into its key's value with `updOf`. -/
def groupFold (keyOf : α → String) (updOf : α → β → β) (ini : β) (items : List α) : List (String × β) :=
  items.foldl (fun acc it => bumpWith (updOf it) ini (keyOf it) acc) []

/-- Stable insertion of `x` into a list sorted by `key` (ties keep `x`
first, matching a stable sort where `x` precedes the list elements in the
original order). -/
def insertByKey (key : α → Int) (x : α) : List α → List α
  | [] => [x]
  | y :: ys => if key y < key x then y :: insertByKey key x ys else x :: y :: ys

/-- Stable sort by an integer key: model of `Array.prototype.sort` with
the numeric comparator `(a, b) => key(a) - key(b)` (V8 sort is stable). -/
def sortByKey (key : α → Int) (l : List α) : List α :=
  l.foldr (insertByKey key) []

/-- A task or event record as supplied by the caller.  Absent JSON fields
are `none`; `estimatedDuration` is in minutes; date-valued fields are kept
as the raw strings the caller supplied (the source stores and re-emits the
strings, and only interprets them through `new Date(...)`, modelled by the
`parseTime` / `dateParts` parameters). -/
structure ScheduleItem where
  title : String := ""
  category : Option String := none
  type : Option String := none
  priority : Option String := none
  status : Option String := none
  dueDate : Option String := none
  startTime : Option String := none
  endTime : Option String := none
  estimatedDuration : Option Nat := none
deriving DecidableEq, Repr

/-- Local calendar decomposition of a parsed date, as produced by the JS
getters `getHours`/`getMinutes`/`getSeconds`/`getMilliseconds`/`getDate`/
`getMonth() + 1`/`getFullYear` on a valid `Date`. -/
structure DateParts where
  year : Nat := 0
  month : Nat := 0
  day : Nat := 0
  hours : Nat := 0
  minutes : Nat := 0
  seconds : Nat := 0
  milliseconds : Nat := 0
deriving DecidableEq, Repr

/-- Heatmap payload threaded through the contexts (opaque to the logic
verified here). -/
structure HeatmapInfo where
  heatmapData : Option String := none
  heatmapAnalysis : Option String := none
  weeklyEventTime : Option Nat := none
deriving DecidableEq, Repr

/-- Caller-supplied aggregate statistics (`taskStats` request field). -/
structure TaskStats where
  completedTasks : Option Nat := none
  overdueTasks : Option Nat := none
  productivityScore : Option Nat := none
  averageCompletionTime : Option Nat := none
  weeklyEventTime : Option Nat := none
  heatmapData : Option String := none
  heatmapAnalysis : Option String := none
deriving DecidableEq, Repr

/-- Caller-supplied time-accuracy aggregate (`timeAccuracy` request
field). -/
structure TimeAccuracy where
  accuracy : Option Nat := none
  averageOverrun : Option Nat := none
deriving DecidableEq, Repr

/-- One stored conversation turn (`{ message, isUser, timestamp }`). -/
structure ChatTurn where
  message : String
  isUser : Bool
  timestamp : String
deriving DecidableEq, Repr

/-- The outcome of the external model call raced against the 30 s timer:
either a text, or a failure (transport error, auth error, or timeout). -/
inductive ModelOutcome where
  | ok (text : String)
  | err
deriving DecidableEq, Repr

/-- Shape of the JSON body returned by `POST /api/chat` (the `timestamp`
field, `new Date().toISOString()`, is ambient and omitted). -/
structure ChatResponse where
  success : Bool
  response : String
  note : Option String
deriving DecidableEq, Repr

/-- Shape of the JSON body returned by
`POST /api/analytics/recommendations` (`timestamp` again omitted). -/
structure RecommendationsResponse where
  success : Bool
  recommendations : List String
  note : Option String
deriving DecidableEq, Repr

/-- Maximum stored messages before summarization
(`MAX_HISTORY_LENGTH`). -/
def maxHistoryLength : Nat := 5

/-- Timeout in milliseconds applied to every model call
(`setTimeout(..., 30000)`). -/
def aiTimeoutMs : Nat := 30000

/-- Transcript rendering used by `summarizeAndResetHistory`
(`history.map(h => ...).join('\n')`). -/
def conversationText (history : List ChatTurn) : String :=
  joinSep "\n" (history.map fun h => (if h.isUser then "User" else "AI") ++ ": " ++ h.message)

/-- The Vietnamese summarization prompt built around the transcript. -/
def summaryPromptFor (transcript : String) : String :=
  "Hãy tóm tắt cuộc trò chuyện sau đây giữa user và AI assistant về quản lý thời gian. Tóm tắt ngắn gọn các chủ đề chính, yêu cầu của user, và phản hồi của AI. Giữ lại thông tin quan trọng để AI có thể tiếp tục cuộc trò chuyện một cách tự nhiên.\n\nCuộc trò chuyện:\n" ++ transcript ++ "\n\nTóm tắt:"

/-- Marker prefixed to the stored summary turn. -/
def summaryMarker : String := "[TÓM TẮT CUỘC TRÒ CHUYỆN TRƯỚC] "

/-- Model of `summarizeAndResetHistory`: the external summarizer is the
oracle `summarize` (`none` models a thrown/failed model call, which the
source catches).  On success the whole history is replaced by one
synthetic non-user turn carrying the marked summary; on failure the last
3 turns are kept (`history.slice(-3)`) and `null` is returned — the error
is swallowed, not propagated. -/
def summarizeAndResetHistory (summarize : String → Option String) (history : List ChatTurn)
    (ts : String) : List ChatTurn × Option String :=
  match summarize (summaryPromptFor (conversationText history)) with
  | some summary => ([ChatTurn.mk (summaryMarker ++ summary) false ts], some summary)
  | none => (history.drop (history.length - 3), none)

/-- Model of `addMessageToHistory` for one identity: push the new turn,
then summarize-and-reset when the length exceeds `maxHistoryLength`.
Returns the new stored history together with the summary result. -/
def addMessageToHistory (summarize : String → Option String) (history : List ChatTurn)
    (message : String) (isUser : Bool) (ts : String) : List ChatTurn × Option String :=
  let h := history ++ [ChatTurn.mk message isUser ts]
  if h.length > maxHistoryLength then summarizeAndResetHistory summarize h ts
  else (h, none)

/-- A sequence of appends against an initially unseen identity (the map
entry starts as `[]` in `getOrCreateUserHistory`). -/
def runAppends (summarize : String → Option String) (ops : List (String × Bool × String)) : List ChatTurn :=
  ops.foldl (fun h op => (addMessageToHistory summarize h op.1 op.2.1 op.2.2).1) []

/-- All fenced blocks of the shape ` ```json ... ``` ` in a text, inner
content trimmed.  This definition follows the SPEC's words ("scans `text`
for all occurrences of fenced code blocks specifically tagged as
structured-data blocks"); it is the comparison point for what the source
actually does.  A chunk after a ` ```json ` marker yields a block only
when a closing fence follows. -/
def fencedJsonBlocks (text : String) : List String :=
  match jsSplitOn text "```json" with
  | [] => []
  | _ :: chunks =>
    chunks.filterMap fun chunk =>
      match jsSplitOn chunk "```" with
      | [] => none
      | [_] => none
      | before :: _ :: _ => some (jsTrim before)

/-- Model of the source's only extraction step,
`aiResponse.match(/```json\s*([\s\S]*?)\s*```/)`: a single, non-global
match.  It captures the trimmed content after the FIRST ` ```json `
marker, up to the next ` ``` ` (a later ` ```json ` marker can supply the
closing backticks for the lazy capture).  Blocks after the first are never
examined.  The parsed value is only logged; it does not influence the
endpoint's response. -/
def chatExtractJson (text : String) : Option String :=
  match jsSplitOn text "```json" with
  | [] => none
  | [_] => none
  | _ :: chunk :: rest =>
    match jsSplitOn chunk "```" with
    | [] => none
    | [only] => if rest.isEmpty then none else some (jsTrim only)
    | before :: _ :: _ => some (jsTrim before)

/-- The valid `delete_task` block of the spec's two-block scenario. -/
def c1DeleteBlock : String :=
  "\x7b \"action\": \"delete_task\", \"taskId\": \"task_id_1\" \x7d"

/-- The malformed `create_task` block (its `taskData` lacks `category`). -/
def c1CreateBlock : String :=
  "\x7b \"action\": \"create_task\", \"taskData\": \x7b \"title\": \"học toán\", \"type\": \"task\" \x7d \x7d"

/-- A model reply containing the valid delete block first and the
malformed create block second. -/
def c1ReplyText : String :=
  "Đã xóa lịch học toán cho bạn.\n```json\n" ++ c1DeleteBlock ++
    "\n```\nVà mình tạo thêm:\n```json\n" ++ c1CreateBlock ++ "\n```\nXong rồi nhé!"

/-- Strict event test (`item.type === 'event'`). -/
def isEventType (t : ScheduleItem) : Bool := t.type == some "event"

/-- Test used by `createAnalyticsContext` to select tasks
(`item.type === 'task' || !item.type`): an explicit task type, or a
falsy type. -/
def isTaskishType (t : ScheduleItem) : Bool :=
  t.type == some "task" || !truthyStr t.type

/-- Key used by `createTasksContext`'s priority grouping
(`task.priority || 'none'`). -/
def prioOrNone (t : ScheduleItem) : String := chooseTruthy t.priority "none"

/-- Key used by `createTasksContext`'s category grouping
(`task.category || 'other'`). -/
def catOrOther (t : ScheduleItem) : String := chooseTruthy t.category "other"

/-- Model of `new Date(t.dueDate || '') < new Date()`: false when the due
date is absent, empty, or unparseable (an invalid `Date` compares false),
otherwise a comparison of instants. -/
def isOverdue (parseTime : String → Option Int) (now : Int) (t : ScheduleItem) : Bool :=
  match t.dueDate with
  | none => false
  | some s =>
    if s.isEmpty then false
    else
      match parseTime s with
      | some v => decide (v < now)
      | none => false

/-- The five fixed categories of `createAnalyticsContext`. -/
def fixedCategories : List String := ["academic", "work", "personal", "health", "social"]

/-- The four fixed priorities of `createAnalyticsContext`. -/
def fixedPriorities : List String := ["urgent", "high", "medium", "low"]

/-- The task side of `createAnalyticsContext`'s partition. -/
def analyticsTaskItems (tasks : List ScheduleItem) : List ScheduleItem :=
  tasks.filter isTaskishType

/-- Category tokens of `createAnalyticsContext`: one `"<category>,<count>"`
token per fixed category, counting over the events-plus-tasks
concatenation `allItems`. -/
def analyticsCategoryStats (tasks : List ScheduleItem) : List String :=
  let events := tasks.filter isEventType
  let taskItems := tasks.filter isTaskishType
  let allItems := events ++ taskItems
  fixedCategories.map fun category =>
    let categoryItems := allItems.filter fun item => item.category == some category
    category ++ "," ++ toString categoryItems.length

/-- Tasks of a given priority in `createAnalyticsContext`. -/
def analyticsPriorityTasks (tasks : List ScheduleItem) (priority : String) : List ScheduleItem :=
  (analyticsTaskItems tasks).filter fun t => t.priority == some priority

/-- Per-priority total in `createAnalyticsContext`. -/
def analyticsPriorityTotal (tasks : List ScheduleItem) (priority : String) : Nat :=
  (analyticsPriorityTasks tasks priority).length

/-- Per-priority completed count in `createAnalyticsContext`. -/
def analyticsPriorityCompleted (tasks : List ScheduleItem) (priority : String) : Nat :=
  ((analyticsPriorityTasks tasks priority).filter fun t => t.status == some "completed").length

/-- Per-priority completion percentage in `createAnalyticsContext`
(`total > 0 ? Math.round((completed / total) * 100) : 0`). -/
def analyticsPriorityRate (tasks : List ScheduleItem) (priority : String) : Nat :=
  jsRoundedRate (analyticsPriorityCompleted tasks priority) (analyticsPriorityTotal tasks priority)

/-- Deadline layout emitted by `createAnalyticsContext`:
`${hours}:${minutes}:${seconds}.${milliseconds}:${day}.${month}:${year}`
with hours/minutes/seconds `padStart(2, '0')` and milliseconds, day and
month NOT padded. -/
def formatDeadline (p : DateParts) : String :=
  pad2 p.hours ++ ":" ++ pad2 p.minutes ++ ":" ++ pad2 p.seconds ++ "." ++
    toString p.milliseconds ++ ":" ++ toString p.day ++ "." ++ toString p.month ++ ":" ++
    toString p.year

/-- Encoded deadlines of one priority in `createAnalyticsContext`: tasks
with a truthy `dueDate`, each formatted from the local calendar parts of
`new Date(task.dueDate)` (supplied by the `dateParts` parameter). -/
def analyticsPriorityDeadlines (dateParts : String → DateParts) (tasks : List ScheduleItem)
    (priority : String) : List String :=
  ((analyticsPriorityTasks tasks priority).filter fun t => truthyStr t.dueDate).map fun t =>
    formatDeadline (dateParts (t.dueDate.getD ""))

/-- Priority rows of `createAnalyticsContext`: one
`"<priority>,<total>,<completed>,<rate>,<deadlines>"` row per fixed
priority. -/
def analyticsPriorityStats (dateParts : String → DateParts) (tasks : List ScheduleItem) : List String :=
  fixedPriorities.map fun priority =>
    priority ++ "," ++ toString (analyticsPriorityTotal tasks priority) ++ "," ++
      toString (analyticsPriorityCompleted tasks priority) ++ "," ++
      toString (analyticsPriorityRate tasks priority) ++ "," ++
      (if (analyticsPriorityDeadlines dateParts tasks priority).length > 0 then
        joinSep "," (analyticsPriorityDeadlines dateParts tasks priority) else "")

/-- Overall completion rate of `createAnalyticsContext`
(`totalTasks > 0 ? (completedTasks / totalTasks) * 100 : 0`): the
numerator is the CALLER-SUPPLIED `taskStats.completedTasks || 0`, and the
value is neither rounded nor clamped. -/
def analyticsCompletionRate (completedTasks : Nat) (tasks : List ScheduleItem) : ℚ :=
  let totalTasks := (analyticsTaskItems tasks).length
  if totalTasks > 0 then ((completedTasks : ℚ) / (totalTasks : ℚ)) * 100 else 0

/-- Derived context record returned by `createAnalyticsContext` (the
`timestamp`-free observable fields). -/
structure AnalyticsContext where
  totalEvents : Nat
  totalTasks : Nat
  totalItems : Nat
  completedTasks : Nat
  overdueTasks : Nat
  productivityScore : Nat
  averageCompletionTime : Nat
  timeEstimationAccuracy : Nat
  averageOverrun : Nat
  categoryStats : List String
  priorityStats : List String
  weeklyEventTime : Nat
  completionRate : ℚ
  events : List ScheduleItem
  tasks : List ScheduleItem
  heatmapData : Option String
  heatmapAnalysis : Option String
deriving DecidableEq, Repr

/-- Model of `createAnalyticsContext(tasks, taskStats, timeAccuracy,
heatmapInfo)`. -/
def createAnalyticsContext (dateParts : String → DateParts) (tasks : List ScheduleItem)
    (taskStats : TaskStats) (timeAccuracy : Option TimeAccuracy)
    (heatmapInfo : Option HeatmapInfo) : AnalyticsContext :=
  let events := tasks.filter isEventType
  let taskItems := tasks.filter isTaskishType
  { totalEvents := events.length
    totalTasks := taskItems.length
    totalItems := events.length + taskItems.length
    completedTasks := taskStats.completedTasks.getD 0
    overdueTasks := taskStats.overdueTasks.getD 0
    productivityScore := taskStats.productivityScore.getD 0
    averageCompletionTime := taskStats.averageCompletionTime.getD 0
    timeEstimationAccuracy := (timeAccuracy.bind (·.accuracy)).getD 0
    averageOverrun := (timeAccuracy.bind (·.averageOverrun)).getD 0
    categoryStats := analyticsCategoryStats tasks
    priorityStats := analyticsPriorityStats dateParts tasks
    weeklyEventTime := (heatmapInfo.bind (·.weeklyEventTime)).getD 0
    completionRate := analyticsCompletionRate (taskStats.completedTasks.getD 0) tasks
    events := events
    tasks := taskItems
    heatmapData := heatmapInfo.bind (·.heatmapData)
    heatmapAnalysis := heatmapInfo.bind (·.heatmapAnalysis) }

/-- Category tokens of `createTasksContext`: a `categoryCount` object is
built over ALL items keyed by `task.category || 'other'`, then one token
per key in insertion order — not the fixed five-category list. -/
def tasksCtxCategoryStats (tasks : List ScheduleItem) : List String :=
  (groupFold catOrOther (fun _ n => n + 1) 0 tasks).map fun kv =>
    kv.1 ++ "," ++ toString kv.2

/-- Per-priority aggregate of `createTasksContext`
(`{ total, completed, deadlines }`). -/
structure PriorityAgg where
  total : Nat
  completed : Nat
  deadlines : List String
deriving DecidableEq, Repr

/-- One item folded into its priority's aggregate: `total++`,
`completed++` when the status is completed, and the RAW `dueDate` string
pushed when truthy. -/
def updatePriorityAgg (t : ScheduleItem) (a : PriorityAgg) : PriorityAgg :=
  { total := a.total + 1
    completed := if t.status == some "completed" then a.completed + 1 else a.completed
    deadlines := if truthyStr t.dueDate then a.deadlines ++ [t.dueDate.getD ""] else a.deadlines }

/-- Priority rows of `createTasksContext`: grouped over ALL items by
`task.priority || 'none'` in insertion order, rate rounded, and the
deadline list holding the raw `dueDate` strings joined by commas. -/
def tasksCtxPriorityStats (tasks : List ScheduleItem) : List String :=
  (groupFold prioOrNone updatePriorityAgg ⟨0, 0, []⟩ tasks).map fun kv =>
    kv.1 ++ "," ++ toString kv.2.total ++ "," ++ toString kv.2.completed ++ "," ++
      toString (jsRoundedRate kv.2.completed kv.2.total) ++ "," ++
      (if kv.2.deadlines.length > 0 then joinSep "," kv.2.deadlines else "")

/-- Weekly event time of `createTasksContext`: the sum of
`estimatedDuration` over ALL events, with no week-window filter and no
use of `endTime - startTime`. -/
def tasksCtxWeeklyEventTime (tasks : List ScheduleItem) : Nat :=
  (tasks.filter isEventType).foldl
    (fun total e => if truthyNum e.estimatedDuration then total + e.estimatedDuration.getD 0 else total) 0

/-- The date string selected for an upcoming-deadline entry
(`t.type === 'event' ? (t.startTime || t.dueDate || '') : (t.dueDate || '')`). -/
def deadlineSortKeyStr (t : ScheduleItem) : String :=
  if t.type == some "event" then chooseTruthy t.startTime (chooseTruthy t.dueDate "")
  else chooseTruthy t.dueDate ""

/-- Upcoming-deadline entry shape of `createTasksContext`. -/
structure UpcomingDeadline where
  title : String
  dueDate : String
  priority : String
  category : Option String
  type : Option String
deriving DecidableEq, Repr

/-- The `upcomingDeadlines` list of `createTasksContext`: uncompleted
items, stably sorted by parsed date (an unparseable date gets key 0 —
the JS comparator is `NaN` there and V8's behaviour is unspecified),
first five, projected to the entry shape with `priority || 'none'`. -/
def upcomingDeadlinesOf (parseTime : String → Option Int) (tasks : List ScheduleItem) :
    List UpcomingDeadline :=
  ((sortByKey (fun t => (parseTime (deadlineSortKeyStr t)).getD 0)
      (tasks.filter fun t => t.status != some "completed")).take 5).map fun t =>
    { title := t.title
      dueDate := deadlineSortKeyStr t
      priority := prioOrNone t
      category := t.category
      type := t.type }

/-- Context record returned by `createTasksContext`.  On the empty-input
early return the source omits several fields (leaving them `undefined`);
every consumer reads them through `|| 0`, so they are modelled as 0. -/
structure TasksContext where
  totalTasks : Nat
  totalEvents : Nat
  totalItems : Nat
  pendingTasks : Nat
  inProgressTasks : Nat
  completedTasks : Nat
  overdueTasks : Nat
  urgentTasks : Nat
  highPriorityTasks : Nat
  productivityScore : Nat
  completionRate : Nat
  weeklyEventTime : Nat
  categoryStats : List String
  priorityStats : List String
  upcomingDeadlines : List UpcomingDeadline
  heatmapData : Option String
  heatmapAnalysis : Option String
deriving DecidableEq, Repr

/-- Model of `createTasksContext(tasks, heatmapInfo)`. -/
def createTasksContext (parseTime : String → Option Int) (now : Int)
    (tasks : List ScheduleItem) (heatmapInfo : Option HeatmapInfo) : TasksContext :=
  if tasks.isEmpty then
    { totalTasks := 0, totalEvents := 0, totalItems := 0, pendingTasks := 0
      inProgressTasks := 0, completedTasks := 0, overdueTasks := 0, urgentTasks := 0
      highPriorityTasks := 0, productivityScore := 0, completionRate := 0
      weeklyEventTime := 0, categoryStats := [], priorityStats := []
      upcomingDeadlines := []
      heatmapData := heatmapInfo.bind (·.heatmapData)
      heatmapAnalysis := heatmapInfo.bind (·.heatmapAnalysis) }
  else
    let completedTasks := (tasks.filter fun t => t.status == some "completed").length
    { totalTasks := tasks.length
      totalEvents := (tasks.filter isEventType).length
      totalItems := tasks.length
      pendingTasks := (tasks.filter fun t => t.status == some "pending").length
      inProgressTasks := (tasks.filter fun t => t.status == some "in-progress").length
      completedTasks := completedTasks
      overdueTasks := (tasks.filter fun t =>
        t.type != some "event" && t.status != some "completed" && isOverdue parseTime now t).length
      urgentTasks := (tasks.filter fun t => t.priority == some "urgent").length
      highPriorityTasks := (tasks.filter fun t => t.priority == some "high").length
      productivityScore := jsRoundedRate completedTasks tasks.length
      completionRate := jsRoundedRate completedTasks tasks.length
      weeklyEventTime := tasksCtxWeeklyEventTime tasks
      categoryStats := tasksCtxCategoryStats tasks
      priorityStats := tasksCtxPriorityStats tasks
      upcomingDeadlines := upcomingDeadlinesOf parseTime tasks
      heatmapData := heatmapInfo.bind (·.heatmapData)
      heatmapAnalysis := heatmapInfo.bind (·.heatmapAnalysis) }

/-- Weekly event minutes as computed in `generateFallbackRecommendations`:
events with truthy `startTime` and `endTime` whose parsed start lies in
the current Sunday-to-Saturday local week window
(`[startOfWeek, startOfWeek + 6 days 23:59:59.999]`), summed as
`(endTime - startTime) / (1000 * 60)`.  `startOfWeek` is the epoch
millisecond of the most recent local Sunday midnight; an unparseable date
(`none`) models an invalid `Date`, whose `NaN` comparisons exclude the
event. -/
def fallbackWeeklyEventTime (parseTime : String → Option Int) (startOfWeek : Int)
    (tasks : List ScheduleItem) : ℚ :=
  (((tasks.filter fun t => t.type == some "event").filter fun t =>
      truthyStr t.startTime && truthyStr t.endTime &&
        (match t.startTime.bind parseTime with
         | some s => decide (startOfWeek ≤ s) && decide (s ≤ startOfWeek + 604799999)
         | none => false)).foldl
    (fun total t =>
      match t.startTime.bind parseTime, t.endTime.bind parseTime with
      | some s, some e => total + ((e - s : Int) : ℚ) / (1000 * 60)
      | _, _ => total) 0)

/-- Weekly event minutes in the SPEC's words: "sum of
`(endTime - startTime)` in minutes over events whose start falls within
the current week window".  Comparison point for the two source
computations. -/
def specWeeklyMinutes (parseTime : String → Option Int) (startOfWeek : Int)
    (items : List ScheduleItem) : ℚ :=
  (items.filterMap fun t =>
    if t.type == some "event" then
      match t.startTime.bind parseTime, t.endTime.bind parseTime with
      | some s, some e =>
        if startOfWeek ≤ s ∧ s ≤ startOfWeek + 604799999 then
          some (((e - s : Int) : ℚ) / (1000 * 60))
        else none
      | _, _ => none
    else none).sum

/-- Most-active-category fold of `generateFallbackRecommendations`: a
`reduce` over the freshly built `"<category>,<count>"` tokens, re-split on
the comma, keeping the first strict maximum.  Pair is
`(total, category)`. -/
def mostActiveCategoryOf (categoryStats : List String) : Nat × String :=
  categoryStats.foldl
    (fun max stat =>
      let parts := jsSplitOn stat ","
      let category := parts.headD ""
      let totalNum := ((parts.getD 1 "").toNat?).getD 0
      if totalNum > max.1 then (totalNum, category) else max)
    (0, "")

/-- Vietnamese display name of a category used by the preference
recommendation. -/
def categoryNameVi (category : String) : String :=
  if category = "academic" then "học tập"
  else if category = "work" then "công việc"
  else if category = "personal" then "cá nhân"
  else if category = "health" then "sức khỏe"
  else if category = "social" then "xã hội"
  else category

/-- Model of `generateFallbackRecommendations(tasks, taskStats,
timeAccuracy, language)`.  `parseTime`/`startOfWeek` model the
`new Date()`-based week window.  The unused locals of the source
(`productivityScore`, `accuracy`) are not re-declared.  The entries are
pushed in source order: a time entry (always), a deadline entry (when
overdue tasks exist), a preference entry (when a dominant or neglected
category exists), and a closing time-management or technique entry
(always). -/
def generateFallbackRecommendations (parseTime : String → Option Int) (startOfWeek : Int)
    (tasks : List ScheduleItem) (taskStats : TaskStats) (timeAccuracy : Option TimeAccuracy)
    (language : String) : List String :=
  let isVietnamese := language = "vi"
  let totalTasks := tasks.length
  let overdueTasks := taskStats.overdueTasks.getD 0
  let weeklyEventTime := fallbackWeeklyEventTime parseTime startOfWeek tasks
  let weeklyHours : ℚ := weeklyEventTime / 60
  let categoryStats := fixedCategories.map fun category =>
    category ++ "," ++ toString (tasks.filter fun t => t.category == some category).length
  let mostActiveCategory := mostActiveCategoryOf categoryStats
  let _ := timeAccuracy
  if isVietnamese then
    let timeRec :=
      if weeklyHours > 50 then
        "Thời gian: Bạn đang dành quá nhiều thời gian cho việc học và làm việc trong tuần. Hãy cân bằng với thời gian nghỉ ngơi để tránh kiệt sức."
      else if weeklyHours < 20 then
        "Thời gian: Thời gian học tập và làm việc trong tuần khá ít. Có thể tăng cường thêm để tối ưu hóa năng suất."
      else
        "Thời gian: Thời gian học tập và làm việc trong tuần của bạn khá hợp lý. Hãy tiếp tục duy trì nhịp độ này."
    let deadlineRecs :=
      if overdueTasks > 0 then
        ["Deadline: Bạn có " ++ toString overdueTasks ++ " nhiệm vụ đã quá hạn. Hãy ưu tiên hoàn thành những nhiệm vụ này trước khi bắt đầu nhiệm vụ mới."]
      else []
    let prefRecs :=
      if mostActiveCategory.1 > 0 then
        let categoryName := categoryNameVi mostActiveCategory.2
        let percentage := jsRoundedRate mostActiveCategory.1 totalTasks
        if percentage > 50 then
          ["Sở thích: Bạn có xu hướng tập trung nhiều vào " ++ categoryName ++ " (" ++ toString percentage ++ "% tổng số nhiệm vụ). Đây có thể là sở thích hoặc ưu tiên của bạn."]
        else if percentage < 10 then
          ["Sở thích: Bạn ít quan tâm đến " ++ categoryName ++ " (chỉ " ++ toString percentage ++ "% tổng số nhiệm vụ). Có thể cần cân bằng hơn."]
        else []
      else []
    let closingRec :=
      if 20 ≤ weeklyHours ∧ weeklyHours ≤ 50 ∧ overdueTasks = 0 then
        "Quản lý thời gian: Cách sắp xếp thời gian và học tập của bạn khá hợp lý. Hãy tiếp tục duy trì thói quen tốt này."
      else
        "Kỹ thuật: Sử dụng kỹ thuật Pomodoro (25 phút tập trung + 5 phút nghỉ) để tăng hiệu quả học tập và làm việc."
    [timeRec] ++ deadlineRecs ++ prefRecs ++ [closingRec]
  else
    let timeRec :=
      if weeklyHours > 50 then
        "Time: You\x27re spending too much time on study and work this week. Balance with rest time to avoid burnout."
      else if weeklyHours < 20 then
        "Time: Your study and work time this week is quite low. Consider increasing it to optimize productivity."
      else
        "Time: Your weekly study and work time is well balanced. Keep maintaining this pace."
    let deadlineRecs :=
      if overdueTasks > 0 then
        ["Deadline: You have " ++ toString overdueTasks ++ " overdue tasks. Prioritize completing these before starting new ones."]
      else []
    let prefRecs :=
      if mostActiveCategory.1 > 0 then
        let percentage := jsRoundedRate mostActiveCategory.1 totalTasks
        if percentage > 50 then
          ["Preferences: You tend to focus heavily on " ++ mostActiveCategory.2 ++ " (" ++ toString percentage ++ "% of total tasks). This might be your preference or priority."]
        else if percentage < 10 then
          ["Preferences: You pay less attention to " ++ mostActiveCategory.2 ++ " (only " ++ toString percentage ++ "% of total tasks). Consider balancing more."]
        else []
      else []
    let closingRec :=
      if 20 ≤ weeklyHours ∧ weeklyHours ≤ 50 ∧ overdueTasks = 0 then
        "Time Management: Your time management and study approach is quite reasonable. Keep maintaining these good habits."
      else
        "Technique: Use Pomodoro technique (25 minutes focus + 5 minutes break) to increase study and work efficiency."
    [timeRec] ++ deadlineRecs ++ prefRecs ++ [closingRec]

/-- Labels recognized by `parseRecommendations` (the `line.includes(':')`
guard of the source is subsumed: every label contains a colon). -/
def recLabels : List String :=
  ["Thời gian:", "Deadline:", "Sở thích:", "Gợi ý:", "Quản lý thời gian:",
   "Tối ưu lịch trình:", "Công cụ:", "Kỹ thuật:", "Time:", "Preferences:",
   "Suggestions:", "Time Management:", "Schedule Optimization:", "Tools:", "Technique:"]

/-- Non-blank lines of a reply (`aiResponse.split('\n').filter(line =>
line.trim())`). -/
def recLines (aiResponse : String) : List String :=
  (jsSplitOn aiResponse "\n").filter fun l => !(jsTrim l).isEmpty

/-- Lines matching a recognized label, trimmed. -/
def recLabeledLines (aiResponse : String) : List String :=
  ((recLines aiResponse).filter fun l =>
    strIncludes l ":" && recLabels.any fun lab => strIncludes l lab).map jsTrim

/-- Lines carrying one of the old-format emoji markers, trimmed. -/
def recEmojiLines (aiResponse : String) : List String :=
  ((recLines aiResponse).filter fun l =>
    strIncludes l "🎯" || strIncludes l "⚡" || strIncludes l "💡" || strIncludes l "🌟").map jsTrim

/-- Model of `parseRecommendations(aiResponse, language)`: labeled lines
first, then emoji-marked lines, then
`generateFallbackRecommendations([], {}, {}, language)`. -/
def parseRecommendations (parseTime : String → Option Int) (startOfWeek : Int)
    (aiResponse language : String) : List String :=
  let structured := recLabeledLines aiResponse
  if structured.isEmpty then
    let emoji := recEmojiLines aiResponse
    if emoji.isEmpty then
      generateFallbackRecommendations parseTime startOfWeek [] {} (some {}) language
    else emoji
  else structured

/-- Model of `generateFallbackResponse(userMessage, tasks)`: the
deterministic keyword-matched chat fallback, built from
`createTasksContext(tasks)` only.  `fmtDate` models
`new Date(s).toLocaleDateString('vi-VN')`; `jsToLower` models only the
ASCII part of `toLowerCase`, which is all the keyword tests rely on. -/
def jsToLower (s : String) : String := String.mk (s.data.map Char.toLower)

/-- ASCII uppercase, for `task.priority.toUpperCase()`. -/
def jsToUpper (s : String) : String := String.mk (s.data.map Char.toUpper)

def generateFallbackResponse (fmtDate : String → String) (parseTime : String → Option Int)
    (now : Int) (userMessage : String) (tasks : List ScheduleItem) : String :=
  let context := createTasksContext parseTime now tasks none
  let lowerMessage := jsToLower userMessage
  if strIncludes lowerMessage "tạo" || strIncludes lowerMessage "thêm" ||
      strIncludes lowerMessage "add" || strIncludes lowerMessage "create" ||
      strIncludes lowerMessage "lịch" then
    "Để tạo task/event, bạn có thể nói như:\n\n• \"Tạo lịch Toán 12 vào thứ 2 từ 7:00 đến 9:50 hàng tuần\"\n• \"Tạo task học bài ngày mai ưu tiên cao\"\n• \"Thêm event họp nhóm thứ 3 từ 14:00 đến 15:30\"\n\nTôi sẽ tự động điền form và hiển thị preview để bạn xác nhận!"
  else if strIncludes lowerMessage "ưu tiên" || strIncludes lowerMessage "priority" ||
      strIncludes lowerMessage "quan trọng" then
    "Hiện tại bạn có " ++ toString context.totalTasks ++ " tasks tổng cộng.\n\n" ++
      (if context.overdueTasks > 0 then
        "Có " ++ toString context.overdueTasks ++ " tasks quá hạn cần xử lý ngay!\n" else "") ++
      (if context.urgentTasks > 0 then
        toString context.urgentTasks ++ " tasks urgent cần ưu tiên hôm nay.\n" else "") ++
      (if context.highPriorityTasks > 0 then
        toString context.highPriorityTasks ++ " tasks high priority cần lên kế hoạch tuần này.\n" else "") ++
      "\nGợi ý: Chia nhỏ tasks lớn thành các phần 25-30 phút để dễ quản lý hơn!"
  else if strIncludes lowerMessage "lịch" || strIncludes lowerMessage "schedule" ||
      strIncludes lowerMessage "deadline" || strIncludes lowerMessage "hạn" then
    if context.upcomingDeadlines.length > 0 then
      "Deadlines sắp tới:\n" ++
        joinSep "\n" ((context.upcomingDeadlines.take 3).enum.map fun it =>
          toString (it.1 + 1) ++ ". " ++ it.2.title ++ " - " ++ fmtDate it.2.dueDate ++
            " (" ++ jsToUpper it.2.priority ++ ")") ++
        "\n\nLời khuyên: Ưu tiên tasks có deadline trong 24-48h tới, nhớ dành thời gian buffer!"
    else
      "Hiện tại bạn chưa có deadline nào sắp tới. Đây là cơ hội tốt để lên kế hoạch cho các tasks dài hạn!"
  else if strIncludes lowerMessage "hiệu suất" || strIncludes lowerMessage "productivity" ||
      strIncludes lowerMessage "thống kê" || strIncludes lowerMessage "phân tích" then
    "Hiệu suất hiện tại:\n• Hoàn thành: " ++
      toString (jsRoundedRate context.completedTasks context.totalTasks) ++ "% (" ++
      toString context.completedTasks ++ "/" ++ toString context.totalTasks ++
      " tasks)\n• Đang thực hiện: " ++ toString context.inProgressTasks ++
      " tasks\n• Quá hạn: " ++ toString context.overdueTasks ++
      " tasks\n\nTips cải thiện:\n• Sử dụng Pomodoro 25 phút + 5 phút nghỉ\n• Tập trung 1 task tại một thời điểm\n• Đặt deadline thực tế hơn"
  else if strIncludes lowerMessage "thời gian" || strIncludes lowerMessage "time" ||
      strIncludes lowerMessage "quản lý" then
    "Quản lý thời gian hiệu quả:\n\nNguyên tắc cơ bản:\n• Quy tắc 80/20: 20% công việc tạo ra 80% kết quả\n• Time blocking: Chia ngày thành các khung thời gian cụ thể\n• Buffer time: Dành 25% thời gian cho việc không lường trước\n\nTình trạng hiện tại: " ++
      toString context.totalTasks ++ " tasks tổng cộng, " ++ toString context.overdueTasks ++
      " quá hạn\n\nGợi ý: Tập trung hoàn thành " ++
      (if context.overdueTasks > 0 then toString context.overdueTasks ++ " tasks quá hạn trước"
       else "các tasks có deadline gần nhất") ++ "!"
  else if strIncludes lowerMessage "giúp" || strIncludes lowerMessage "help" ||
      strIncludes lowerMessage "hướng dẫn" then
    "Tôi có thể giúp bạn:\n\n• Tạo task: \"Tạo task học bài với mô tả ôn tập toán, ngày hạn ngày mai, ưu tiên cao\"\n• Xem ưu tiên: \"Ưu tiên công việc\", \"Tasks quan trọng\"\n• Lịch trình: \"Deadline sắp tới\", \"Lịch tuần này\"\n• Hiệu suất: \"Phân tích hiệu suất\", \"Thống kê tasks\"\n• Quản lý thời gian: \"Tips quản lý thời gian\"\n\nChỉ cần hỏi tự nhiên, tôi sẽ hiểu và giúp bạn!"
  else if strIncludes lowerMessage "xin chào" || strIncludes lowerMessage "hello" ||
      strIncludes lowerMessage "hi" || strIncludes lowerMessage "chào" then
    "Xin chào! Tôi là AI Assistant của N-Timer.\n\nTình trạng hiện tại:\n• " ++
      toString context.totalTasks ++ " tasks tổng cộng\n• " ++
      toString context.pendingTasks ++ " đang chờ\n• " ++
      toString context.inProgressTasks ++ " đang thực hiện\n• " ++
      toString context.completedTasks ++ " đã hoàn thành\n• " ++
      toString context.overdueTasks ++
      " quá hạn\n\nTôi có thể giúp bạn tạo task, phân tích ưu tiên, quản lý thời gian và nhiều hơn nữa!\n\nBạn muốn làm gì hôm nay?"
  else
    "Tôi hiểu bạn đang hỏi về: \"" ++ userMessage ++ "\"\n\nTình trạng hiện tại: " ++
      toString context.totalTasks ++
      " tasks tổng cộng\n\nTôi có thể giúp:\n• Tạo task mới\n• Phân tích ưu tiên công việc\n• Xem lịch trình và deadlines\n• Tips quản lý thời gian\n• Phân tích hiệu suất\n\nHãy hỏi cụ thể hơn để tôi có thể hỗ trợ tốt nhất!"

/-- Model of the `POST /api/chat` handler after validation, as a function
of the model-call outcome.  On success the raw reply is returned (the
`jsonMatch` extraction only logs); on failure — error or 30 s timeout —
the response is still success-shaped, carries the deterministic fallback
built from the caller-supplied message and items, and is marked by the
degradation `note`.  Both branches also append the returned text to the
history (state change not shown in the response shape). -/
def chatHandler (fmtDate : String → String) (parseTime : String → Option Int) (now : Int)
    (outcome : ModelOutcome) (message : String) (tasks : List ScheduleItem) : ChatResponse :=
  match outcome with
  | .ok aiResponse => { success := true, response := aiResponse, note := none }
  | .err =>
    { success := true
      response := generateFallbackResponse fmtDate parseTime now message tasks
      note := some "Using fallback response due to API error" }

/-- Model of the `POST /api/analytics/recommendations` handler after
validation, as a function of the model-call outcome. -/
def recommendationsHandler (parseTime : String → Option Int) (startOfWeek : Int)
    (outcome : ModelOutcome) (tasks : List ScheduleItem) (taskStats : TaskStats)
    (timeAccuracy : Option TimeAccuracy) (language : String) : RecommendationsResponse :=
  match outcome with
  | .ok aiResponse =>
    { success := true
      recommendations := parseRecommendations parseTime startOfWeek aiResponse language
      note := none }
  | .err =>
    { success := true
      recommendations :=
        generateFallbackRecommendations parseTime startOfWeek tasks taskStats timeAccuracy language
      note := some "Using fallback recommendations due to AI API error" }

/-- Modelled from the spec: the source contains no executable
local-clock-to-UTC converter — the rule lives in the `createPrompt`
template as instructions to the model ("Chuyển đổi giờ VN sang UTC (trừ 7
giờ)", with the worked examples `11:00 VN = 04:00 UTC`, `12:00 VN = 05:00
UTC`, …).  The configured offset of the Asia/Ho_Chi_Minh timezone. -/
def vnOffsetMinutes : Int := 7 * 60

/-- Modelled from the spec: `localClockToAbsolute(localDate, hour,
minute)`.  Timestamps are minutes since the epoch; a local calendar date
is its day number `d`, so local wall-clock `(d, hour, minute)` denotes
`d * 1440 + hour * 60 + minute` local minutes, and the absolute (UTC)
instant subtracts the configured offset. -/
def localClockToAbsolute (localDay : Int) (hour minute : Nat) : Int :=
  localDay * 1440 + hour * 60 + minute - vnOffsetMinutes

/-- Calendar day of an absolute minute timestamp. -/
def utcDayOf (t : Int) : Int := t / 1440

/-- Hour-of-day of an absolute minute timestamp. -/
def utcHourOf (t : Int) : Int := (t % 1440) / 60

/-- Minute-of-hour of an absolute minute timestamp. -/
def utcMinuteOf (t : Int) : Int := t % 60

/-- A date-parse oracle that treats every string as unparseable (an
invalid `Date`); in particular it satisfies `parse "" = none`. -/
def constParse : String → Option Int := fun _ => none

/-- Two plain tasks with categories `social` then `academic`. -/
def c5Items : List ScheduleItem :=
  [{ title := "gặp bạn", category := some "social", type := some "task" },
   { title := "ôn toán", category := some "academic", type := some "task" }]

/-- One pending high-priority task with an ISO due-date string. -/
def c6Items : List ScheduleItem :=
  [{ title := "báo cáo", category := some "work", type := some "task",
     priority := some "high", status := some "pending",
     dueDate := some "2025-09-25T23:59:00.000Z" }]

/-- Local calendar parts of `2025-09-25T23:59:00.000` (the layout example
documented in the source's own prompt text). -/
def c6SampleParts : DateParts :=
  { year := 2025, month := 9, day := 25, hours := 23, minutes := 59, seconds := 0,
    milliseconds := 0 }

/-- One event carrying only an `estimatedDuration`, with no start or end
time at all (so it lies in no week window). -/
def c7Items : List ScheduleItem :=
  [{ title := "họp nhóm", type := some "event", estimatedDuration := some 60 }]

/-- A single pending task. -/
def c8Tasks : List ScheduleItem :=
  [{ title := "bài tập", category := some "academic", type := some "task",
     status := some "pending" }]

/-- Caller-supplied aggregate claiming 2 completed tasks. -/
def c8Stats : TaskStats := { completedTasks := some 2 }

/-- Five stored turns, used to exercise the compaction threshold. -/
def demoTurns : List ChatTurn :=
  [⟨"xin chào", true, "t1"⟩, ⟨"Chào bạn!", false, "t2"⟩,
   ⟨"lịch tuần này?", true, "t3"⟩, ⟨"Bạn có 3 tasks.", false, "t4"⟩,
   ⟨"cảm ơn", true, "t5"⟩]

/-- The three possible opening time-usage entries of the fallback
recommendations, per language. -/
def timeOpeners : List String :=
  ["Thời gian: Bạn đang dành quá nhiều thời gian cho việc học và làm việc trong tuần. Hãy cân bằng với thời gian nghỉ ngơi để tránh kiệt sức.",
   "Thời gian: Thời gian học tập và làm việc trong tuần khá ít. Có thể tăng cường thêm để tối ưu hóa năng suất.",
   "Thời gian: Thời gian học tập và làm việc trong tuần của bạn khá hợp lý. Hãy tiếp tục duy trì nhịp độ này.",
   "Time: You\x27re spending too much time on study and work this week. Balance with rest time to avoid burnout.",
   "Time: Your study and work time this week is quite low. Consider increasing it to optimize productivity.",
   "Time: Your weekly study and work time is well balanced. Keep maintaining this pace."]

/-- The two possible closing entries of the fallback recommendations, per
language: a time-management entry or a Pomodoro technique entry. -/
def closingRecs : List String :=
  ["Quản lý thời gian: Cách sắp xếp thời gian và học tập của bạn khá hợp lý. Hãy tiếp tục duy trì thói quen tốt này.",
   "Kỹ thuật: Sử dụng kỹ thuật Pomodoro (25 phút tập trung + 5 phút nghỉ) để tăng hiệu quả học tập và làm việc.",
   "Time Management: Your time management and study approach is quite reasonable. Keep maintaining these good habits.",
   "Technique: Use Pomodoro technique (25 minutes focus + 5 minutes break) to increase study and work efficiency."]

/-- The splitter never returns an empty list (mirrors
`String.prototype.split`, which always yields at least one piece). -/
theorem splitGo_ne_nil (sep : List Char) (fuel : Nat) (acc l : List Char) :
    splitGo sep fuel acc l ≠ [] := by
  induction fuel generalizing acc l with
  | zero => simp [splitGo]
  | succ n ih =>
    cases l with
    | nil => simp [splitGo]
    | cons c rest =>
      rw [splitGo]
      split
      · simp
      · exact ih _ _

/-- `jsSplitOn` never returns an empty list. -/
theorem jsSplitOn_ne_nil (s sep : String) : jsSplitOn s sep ≠ [] := by
  unfold jsSplitOn
  intro h
  exact splitGo_ne_nil _ _ _ _ (List.map_eq_nil_iff.mp h)

/-- One append keeps the stored history within capacity and never leaves
it empty. -/
theorem addMessage_step (s : String → Option String) (h : List ChatTurn) (m : String)
    (u : Bool) (ts : String) (hl : h.length ≤ 5) :
    (addMessageToHistory s h m u ts).1.length ≤ 5 ∧
      (addMessageToHistory s h m u ts).1 ≠ [] := by
  unfold addMessageToHistory
  by_cases h5 : (h ++ [(⟨m, u, ts⟩ : ChatTurn)]).length > maxHistoryLength
  · rw [if_pos h5]
    unfold summarizeAndResetHistory
    cases hs : s (summaryPromptFor (conversationText (h ++ [⟨m, u, ts⟩]))) with
    | some summary => simp
    | none =>
      simp only [List.length_append, List.length_cons, List.length_nil] at h5 ⊢
      simp only [maxHistoryLength] at h5
      refine ⟨?_, ?_⟩
      · simp only [List.length_drop, List.length_append, List.length_cons, List.length_nil]
        omega
      · intro heq
        have hlen := congrArg List.length heq
        simp only [List.length_drop, List.length_append, List.length_cons, List.length_nil,
          List.length_nil] at hlen
        omega
  · rw [if_neg h5]
    simp only [List.length_append, List.length_cons, List.length_nil] at h5 ⊢
    simp only [maxHistoryLength] at h5
    refine ⟨by omega, ?_⟩
    intro heq
    have hlen := congrArg List.length heq
    simp at hlen

set_option maxRecDepth 40000 in
/-- C1 (counterexample): in a reply holding two well-formed fenced json
blocks — a valid `delete_task` first and a `create_task` missing
`category` second — the source's extraction
(`aiResponse.match(/```json\s*([\s\S]*?)\s*```/)`, no global flag)
examines only the first block: it does not scan all blocks, produces no
per-block `ActionRequest` sequence, and the second block is never reached,
so the claimed "one validated ActionRequest plus one discarded entry"
outcome does not occur. -/
theorem chatExtraction_not_all_blocks :
    fencedJsonBlocks c1ReplyText = [c1DeleteBlock, c1CreateBlock] ∧
    (chatExtractJson c1ReplyText).toList = [c1DeleteBlock] ∧
    c1DeleteBlock ≠ c1CreateBlock := by decide

set_option maxRecDepth 40000 in
/-- C1 (amended): extraction in the chat endpoint examines at most the
first fenced json block (finding none exactly when the reply holds no
block at all), performs no taxonomy validation and returns no actions —
the success response is always the raw reply text — and in the two-block
scenario the single examined block is the leading delete block. -/
theorem chatExtraction_first_block_only :
    (∀ text, (chatExtractJson text).isNone → fencedJsonBlocks text = []) ∧
    (∀ fmtDate parseTime now text message tasks,
      chatHandler fmtDate parseTime now (.ok text) message tasks =
        { success := true, response := text, note := none }) ∧
    chatExtractJson c1ReplyText = some c1DeleteBlock := by
  refine ⟨?_, fun _ _ _ _ _ _ => rfl, by decide⟩
  intro text
  unfold chatExtractJson fencedJsonBlocks
  cases hsplit : jsSplitOn text "```json" with
  | nil => intro _; rfl
  | cons head rest =>
    cases rest with
    | nil => intro _; rfl
    | cons chunk rest2 =>
      cases hc : jsSplitOn chunk "```" with
      | nil => exact absurd hc (jsSplitOn_ne_nil _ _)
      | cons b bs =>
        cases bs with
        | nil =>
          cases rest2 with
          | nil =>
            intro _
            simp only [List.filterMap_cons, hc, List.filterMap_nil]
          | cons r rs =>
            intro hnone
            simp [hc] at hnone
        | cons b2 bs2 =>
          intro hnone
          simp [hc] at hnone

/-- C2: for every identity, starting from the empty history of a fresh
identity, the stored history stays within `K = 5` turns at rest (so it
never exceeds `K + 1 = 6` even counting the just-pushed turn); an append
from 5 stored turns triggers compaction, leaving either exactly the one
synthetic non-user turn carrying the marked summary (summarizer success)
or exactly the most recent 3 turns unmodified (summarizer failure) —
never 0 turns and never the unchanged 6-turn history; and on summarizer
failure the result value is `none` (the caught error is swallowed), so
the failure is not propagated.  The summarizer is the oracle `summarize`;
`none` models a failed external call. -/
theorem chatHistory_invariant (summarize : String → Option String) :
    (∀ ops, (runAppends summarize ops).length ≤ 5) ∧
    (∀ history message isUser ts, history.length ≤ 5 →
      (addMessageToHistory summarize history message isUser ts).1.length ≤ 5 ∧
      (addMessageToHistory summarize history message isUser ts).1 ≠ [] ∧
      (history.length < 5 →
        (addMessageToHistory summarize history message isUser ts).1 =
          history ++ [ChatTurn.mk message isUser ts]) ∧
      (history.length = 5 →
        (addMessageToHistory summarize history message isUser ts).1 =
          (match summarize (summaryPromptFor (conversationText (history ++ [ChatTurn.mk message isUser ts]))) with
           | some summary => [ChatTurn.mk (summaryMarker ++ summary) false ts]
           | none => (history ++ [ChatTurn.mk message isUser ts]).drop 3) ∧
        ((addMessageToHistory summarize history message isUser ts).1.length = 1 ∨
         (addMessageToHistory summarize history message isUser ts).1.length = 3) ∧
        (summarize (summaryPromptFor (conversationText (history ++ [ChatTurn.mk message isUser ts]))) = none →
          (addMessageToHistory summarize history message isUser ts).2 = none))) := by
  have hstep : ∀ history message isUser ts, List.length history ≤ 5 →
      (addMessageToHistory summarize history message isUser ts).1.length ≤ 5 :=
    fun h m u ts hl => (addMessage_step summarize h m u ts hl).1
  constructor
  · intro ops
    suffices hgen : ∀ (l : List (String × Bool × String)) (h : List ChatTurn), h.length ≤ 5 →
        (l.foldl (fun acc op => (addMessageToHistory summarize acc op.1 op.2.1 op.2.2).1) h).length ≤ 5 by
      exact hgen ops [] (by simp)
    intro l
    induction l with
    | nil => intro h hl; simpa using hl
    | cons op rest ih =>
      intro h hl
      exact ih _ (hstep h op.1 op.2.1 op.2.2 hl)
  · intro history message isUser ts hl
    refine ⟨hstep _ _ _ _ hl, (addMessage_step summarize _ _ _ _ hl).2, ?_, ?_⟩
    · intro hlt
      unfold addMessageToHistory
      rw [if_neg]
      simp only [List.length_append, List.length_cons, List.length_nil, maxHistoryLength]
      omega
    · intro h5
      have hgt : (history ++ [(⟨message, isUser, ts⟩ : ChatTurn)]).length > maxHistoryLength := by
        simp only [List.length_append, List.length_cons, List.length_nil, maxHistoryLength, h5]
        omega
      have hlen6 : (history ++ [(⟨message, isUser, ts⟩ : ChatTurn)]).length = 6 := by
        simp [h5]
      refine ⟨?_, ?_, ?_⟩
      · unfold addMessageToHistory
        rw [if_pos hgt]
        unfold summarizeAndResetHistory
        cases summarize (summaryPromptFor (conversationText (history ++ [ChatTurn.mk message isUser ts]))) with
        | some summary => simp
        | none => simp [hlen6]
      · unfold addMessageToHistory
        rw [if_pos hgt]
        unfold summarizeAndResetHistory
        cases summarize (summaryPromptFor (conversationText (history ++ [ChatTurn.mk message isUser ts]))) with
        | some summary => simp
        | none =>
          right
          simp [List.length_drop, hlen6]
      · intro hfail
        unfold addMessageToHistory
        rw [if_pos hgt]
        unfold summarizeAndResetHistory
        rw [hfail]

/-- Witness for `chatHistory_invariant`: appending a sixth message to five
stored turns under a failing summarizer leaves exactly the last three
turns. -/
theorem chatHistory_invariant_witness :
    demoTurns.length ≤ 5 ∧
      (addMessageToHistory (fun _ => none) demoTurns "còn deadline nào?" true "t6").1 =
        (demoTurns ++ [ChatTurn.mk "còn deadline nào?" true "t6"]).drop 3 := by
  refine ⟨by decide, ?_⟩
  have h := ((chatHistory_invariant (fun _ => none)).2 demoTurns "còn deadline nào?" true "t6"
    (by decide)).2.2.2 (by decide)
  exact h.1

/-- C3: when the external model call fails or times out (the raced 30 s
deadline, `aiTimeoutMs = 30000`, turns a late model into the same caught
rejection), both endpoints still answer success-shaped: `success = true`,
the content is the deterministic fallback computed from the
caller-supplied message/items/aggregates alone (no model call appears in
either fallback function), and the response carries the degradation
`note`; the failure is never surfaced as an error to the end user. -/
theorem degraded_responses_on_model_failure :
    aiTimeoutMs = 30000 ∧
    (∀ fmtDate parseTime now outcome message tasks,
      (chatHandler fmtDate parseTime now outcome message tasks).success = true) ∧
    (∀ parseTime startOfWeek outcome tasks taskStats timeAccuracy language,
      (recommendationsHandler parseTime startOfWeek outcome tasks taskStats timeAccuracy
        language).success = true) ∧
    (∀ fmtDate parseTime now message tasks,
      chatHandler fmtDate parseTime now .err message tasks =
        { success := true
          response := generateFallbackResponse fmtDate parseTime now message tasks
          note := some "Using fallback response due to API error" }) ∧
    (∀ parseTime startOfWeek tasks taskStats timeAccuracy language,
      recommendationsHandler parseTime startOfWeek .err tasks taskStats timeAccuracy language =
        { success := true
          recommendations :=
            generateFallbackRecommendations parseTime startOfWeek tasks taskStats timeAccuracy
              language
          note := some "Using fallback recommendations due to AI API error" }) := by
  refine ⟨rfl, ?_, ?_, fun _ _ _ _ _ => rfl, fun _ _ _ _ _ _ => rfl⟩
  · intro _ _ _ outcome _ _
    cases outcome <;> rfl
  · intro _ _ outcome _ _ _ _
    cases outcome <;> rfl

/-- C4: `localClockToAbsolute` subtracts exactly the configured +7:00
offset (420 minutes) from the encoded local wall-clock instant, is exact
to the minute, and re-reading the result in the reference timezone gives
back the requested minute and the requested hour minus 7 on the same
calendar date whenever the local hour is at least 7 — in particular local
11:00 resolves to 04:00 of the same date. -/
theorem localClockToAbsolute_subtracts_offset (d : Int) (h m : Nat)
    (_hd : 0 ≤ d) (hh : 7 ≤ h) (h24 : h < 24) (hm : m < 60) :
    localClockToAbsolute d h m = d * 1440 + h * 60 + m - 7 * 60 ∧
    utcDayOf (localClockToAbsolute d h m) = d ∧
    utcHourOf (localClockToAbsolute d h m) = (h : Int) - 7 ∧
    utcMinuteOf (localClockToAbsolute d h m) = m := by
  have hkey : localClockToAbsolute d h m = (60 * ((h : Int) - 7) + m) + d * 1440 := by
    simp only [localClockToAbsolute, vnOffsetMinutes]
    ring
  have hr0 : (0 : Int) ≤ 60 * ((h : Int) - 7) + m := by omega
  have hr1 : (60 * ((h : Int) - 7) + m) < 1440 := by omega
  refine ⟨rfl, ?_, ?_, ?_⟩
  · rw [utcDayOf, hkey, Int.add_mul_ediv_right _ _ (by norm_num : (1440 : Int) ≠ 0),
      Int.ediv_eq_zero_of_lt hr0 hr1, zero_add]
  · rw [utcHourOf, hkey, Int.add_mul_emod_self, Int.emod_eq_of_lt hr0 hr1]
    have hsplit : 60 * ((h : Int) - 7) + m = (m : Int) + ((h : Int) - 7) * 60 := by ring
    rw [hsplit, Int.add_mul_ediv_right _ _ (by norm_num : (60 : Int) ≠ 0),
      Int.ediv_eq_zero_of_lt (by omega) (by omega), zero_add]
  · rw [utcMinuteOf, hkey]
    have hsplit : (60 * ((h : Int) - 7) + m) + d * 1440 =
        (m : Int) + (d * 24 + (h : Int) - 7) * 60 := by ring
    rw [hsplit, Int.add_mul_emod_self, Int.emod_eq_of_lt (by omega) (by omega)]

/-- Witness for `localClockToAbsolute_subtracts_offset`: local 11:00 on
day 20454 maps to 04:00 of the same day. -/
theorem localClockToAbsolute_witness :
    utcDayOf (localClockToAbsolute 20454 11 0) = 20454 ∧
    utcHourOf (localClockToAbsolute 20454 11 0) = 4 ∧
    utcMinuteOf (localClockToAbsolute 20454 11 0) = 0 := by
  have h := localClockToAbsolute_subtracts_offset 20454 11 0 (by decide) (by decide)
    (by decide) (by decide)
  exact ⟨h.2.1, h.2.2.1.trans (by decide), h.2.2.2⟩

/-- C9: the encoders are total over the optional-field space by
construction (every definition above is a total function), an empty item
collection yields the all-zero context — zero counts, zero rates, empty
token lists — and an item with every optional field absent is encoded
without error, degrading to zero/empty values. -/
theorem encoder_total_empty_all_zero :
    (∀ parseTime now,
      createTasksContext parseTime now [] none =
        { totalTasks := 0, totalEvents := 0, totalItems := 0, pendingTasks := 0,
          inProgressTasks := 0, completedTasks := 0, overdueTasks := 0, urgentTasks := 0,
          highPriorityTasks := 0, productivityScore := 0, completionRate := 0,
          weeklyEventTime := 0, categoryStats := [], priorityStats := [],
          upcomingDeadlines := [], heatmapData := none, heatmapAnalysis := none }) ∧
    analyticsCategoryStats [] = ["academic,0", "work,0", "personal,0", "health,0", "social,0"] ∧
    (∀ dateParts, analyticsPriorityStats dateParts [] =
      ["urgent,0,0,0,", "high,0,0,0,", "medium,0,0,0,", "low,0,0,0,"]) ∧
    (∀ completed, analyticsCompletionRate completed [] = 0) ∧
    (∀ parseTime now,
      (createTasksContext parseTime now [{}] none).totalTasks = 1 ∧
      (createTasksContext parseTime now [{}] none).overdueTasks = 0 ∧
      (createTasksContext parseTime now [{}] none).categoryStats = ["other,1"] ∧
      (createTasksContext parseTime now [{}] none).priorityStats = ["none,1,0,0,"] ∧
      (createTasksContext parseTime now [{}] none).upcomingDeadlines =
        [{ title := "", dueDate := "", priority := "none", category := none, type := none }]) := by
  exact ⟨fun _ _ => rfl, by decide, fun _ => rfl, fun _ => rfl,
    fun _ _ => ⟨rfl, rfl, rfl, rfl, rfl⟩⟩

/-- Membership in `dedupFirst` is membership in the original list. -/
theorem mem_dedupFirst (a : String) (l : List String) : a ∈ dedupFirst l ↔ a ∈ l := by
  induction l using dedupFirst.induct with
  | case1 => simp [dedupFirst]
  | case2 x xs ih =>
    rw [dedupFirst]
    by_cases hax : a = x
    · subst hax; simp
    · simp [hax, ih, List.mem_filter]

/-- `dedupFirst` produces no duplicates. -/
theorem nodup_dedupFirst (l : List String) : (dedupFirst l).Nodup := by
  induction l using dedupFirst.induct with
  | case1 => simp [dedupFirst]
  | case2 x xs ih =>
    rw [dedupFirst]
    refine List.nodup_cons.mpr ⟨?_, ih⟩
    rw [mem_dedupFirst]
    simp [List.mem_filter]

/-- Appending one element extends the first-occurrence key list exactly
when the element is new. -/
theorem dedupFirst_append_singleton (k : String) (l : List String) :
    dedupFirst (l ++ [k]) = if k ∈ l then dedupFirst l else dedupFirst l ++ [k] := by
  induction l using dedupFirst.induct with
  | case1 => simp [dedupFirst]
  | case2 x xs ih =>
    by_cases hkx : k = x
    · subst hkx
      have hfil : (xs ++ [k]).filter (fun y => !(y = k : Bool)) =
          xs.filter (fun y => !(y = k : Bool)) := by
        rw [List.filter_append]; simp
      rw [List.cons_append, dedupFirst, hfil, if_pos (List.mem_cons_self k xs), dedupFirst]
    · have hfil : (xs ++ [k]).filter (fun y => !(y = x : Bool)) =
          xs.filter (fun y => !(y = x : Bool)) ++ [k] := by
        rw [List.filter_append]; simp [hkx]
      rw [List.cons_append, dedupFirst, hfil, ih]
      by_cases hk : k ∈ xs
      · rw [if_pos (by simp [List.mem_filter, hk, hkx]), if_pos (by simp [hk]), dedupFirst]
      · rw [if_neg (by simp [List.mem_filter, hk]),
          if_neg (by simp [hkx, hk] : ¬ k ∈ x :: xs), dedupFirst]
        simp

/-- Bumping a key absent from a mapped key list appends a fresh entry. -/
theorem bumpWith_map_not_mem (upd : β → β) (ini : β) (k : String) (f : String → β)
    (l : List String) (hk : k ∉ l) :
    bumpWith upd ini k (l.map fun j => (j, f j)) =
      (l.map fun j => (j, f j)) ++ [(k, upd ini)] := by
  induction l with
  | nil => rfl
  | cons x xs ih =>
    have hxk : ¬ (x = k) := fun h => hk (h ▸ List.mem_cons_self x xs)
    simp only [List.map_cons, bumpWith, hxk, if_false]
    rw [ih fun h => hk (List.mem_cons_of_mem _ h)]
    simp

/-- Bumping a key present in a duplicate-free mapped key list updates
exactly that entry. -/
theorem bumpWith_map_mem (upd : β → β) (ini : β) (k : String) (f : String → β)
    (l : List String) (hnd : l.Nodup) (hk : k ∈ l) :
    bumpWith upd ini k (l.map fun j => (j, f j)) =
      l.map fun j => (j, if j = k then upd (f j) else f j) := by
  induction l with
  | nil => cases hk
  | cons x xs ih =>
    have hx_not : x ∉ xs := (List.nodup_cons.mp hnd).1
    rcases List.mem_cons.mp hk with hxk | hk2
    · subst hxk
      simp only [List.map_cons, bumpWith, if_pos rfl]
      refine congrArg (_ :: ·) ?_
      refine (List.map_congr_left fun j hj => ?_).symm
      have hj_ne : ¬ (j = k) := fun h => hx_not (h ▸ hj)
      simp [hj_ne]
    · have hxk : ¬ (x = k) := fun h => hx_not (h ▸ hk2)
      simp only [List.map_cons, bumpWith, hxk, if_false]
      rw [ih (List.nodup_cons.mp hnd).2 hk2]

/-- One more item folds into the grouped object by bumping its key. -/
theorem groupFold_append (keyOf : α → String) (updOf : α → β → β) (ini : β)
    (items : List α) (x : α) :
    groupFold keyOf updOf ini (items ++ [x]) =
      bumpWith (updOf x) ini (keyOf x) (groupFold keyOf updOf ini items) := by
  unfold groupFold
  rw [List.foldl_append]
  rfl

/-- Characterization of the JS-object grouping pass: one entry per
distinct key in first-appearance order, each entry folding exactly the
items carrying that key, in order. -/
theorem groupFold_spec (keyOf : α → String) (updOf : α → β → β) (ini : β) (items : List α) :
    groupFold keyOf updOf ini items =
      (dedupFirst (items.map keyOf)).map fun k =>
        (k, (items.filter fun it => keyOf it == k).foldl (fun b it => updOf it b) ini) := by
  induction items using List.reverseRecOn with
  | nil => simp [groupFold, dedupFirst]
  | append_singleton items x ih =>
    rw [groupFold_append, ih, List.map_append, List.map_singleton, dedupFirst_append_singleton]
    by_cases hmem : keyOf x ∈ items.map keyOf
    · rw [if_pos hmem]
      rw [bumpWith_map_mem _ _ _ _ _ (nodup_dedupFirst _) ((mem_dedupFirst _ _).mpr hmem)]
      refine List.map_congr_left fun k hk => ?_
      by_cases hkx : k = keyOf x
      · subst hkx
        simp only [if_pos rfl, List.filter_append, List.foldl_append]
        simp [List.filter_cons]
      · simp only [if_neg hkx, List.filter_append, List.foldl_append, List.filter_cons,
          List.filter_nil, beq_iff_eq]
        rw [if_neg fun h => hkx h.symm]
        rfl
    · rw [if_neg hmem]
      rw [bumpWith_map_not_mem _ _ _ _ _ (fun h => hmem ((mem_dedupFirst _ _).mp h))]
      rw [List.map_append, List.map_singleton]
      refine congrArg₂ (· ++ ·) ?_ ?_
      · refine List.map_congr_left fun k hk => ?_
        have hk_mem : k ∈ items.map keyOf := (mem_dedupFirst _ _).mp hk
        have hkx : ¬ ((keyOf x == k) = true) := by
          intro h
          exact hmem (beq_iff_eq.mp h ▸ hk_mem)
        simp [List.filter_append, List.filter_cons, hkx]
      · have hfil : (items.filter fun it => keyOf it == keyOf x) = [] := by
          rw [List.filter_eq_nil_iff]
          intro a ha h
          exact hmem (beq_iff_eq.mp h ▸ List.mem_map_of_mem keyOf ha)
        simp [List.filter_append, List.filter_cons, hfil]

/-- Counting fold evaluates to the length. -/
theorem foldl_count_eq (l : List α) (n : Nat) :
    l.foldl (fun acc (_ : α) => acc + 1) n = n + l.length := by
  induction l generalizing n with
  | nil => simp
  | cons x xs ih => simp [ih]; omega

/-- The priority aggregate fold evaluates componentwise: total counts the
items, completed counts the completed ones, and the deadline list
collects the truthy raw due-date strings in order. -/
theorem foldl_updatePriorityAgg (l : List ScheduleItem) (a : PriorityAgg) :
    l.foldl (fun b it => updatePriorityAgg it b) a =
      ⟨a.total + l.length,
       a.completed + l.countP (fun t => t.status == some "completed"),
       a.deadlines ++ l.filterMap fun t =>
         if truthyStr t.dueDate then some (t.dueDate.getD "") else none⟩ := by
  induction l generalizing a with
  | nil => simp
  | cons x xs ih =>
    rw [List.foldl_cons, ih]
    unfold updatePriorityAgg
    simp only [List.length_cons, List.countP_cons, List.filterMap_cons, PriorityAgg.mk.injEq]
    refine ⟨?_, ?_, ?_⟩
    · omega
    · by_cases hx : (x.status == some "completed") = true <;> simp [hx] <;> omega
    · by_cases hx : truthyStr x.dueDate = true <;> simp [hx]

/-- The guard `deadlines.length > 0 ? deadlines.join(',') : ''` is just
the join. -/
theorem joinSep_if_pos (s : String) (l : List String) :
    (if l.length > 0 then joinSep s l else "") = joinSep s l := by
  cases l <;> simp [joinSep]

/-- Counting a disjunction of disjoint predicates adds the counts. -/
theorem countP_or_disjoint (p q : α → Bool) (l : List α)
    (h : ∀ a ∈ l, ¬(p a = true ∧ q a = true)) :
    l.countP (fun a => p a || q a) = l.countP p + l.countP q := by
  induction l with
  | nil => simp
  | cons x xs ih =>
    simp only [List.countP_cons]
    rw [ih fun a ha => h a (List.mem_cons_of_mem _ ha)]
    have hx := h x (List.mem_cons_self x xs)
    cases hp : p x <;> cases hq : q x <;> simp [hp, hq] at hx ⊢ <;> omega

/-- An item is never both an event and a task-ish item. -/
theorem isEventType_isTaskishType_disjoint (t : ScheduleItem) :
    ¬(isEventType t = true ∧ isTaskishType t = true) := by
  rintro ⟨he, ht⟩
  unfold isEventType at he
  unfold isTaskishType truthyStr at ht
  rw [beq_iff_eq] at he
  rw [he] at ht
  simp at ht
  exact absurd ht (by decide)

set_option maxRecDepth 10000 in
/-- C5 (counterexample): on two tasks with categories `social` then
`academic`, the chat-side encoder `createTasksContext` — one of the two
category encoders the claim covers — emits two tokens in input
first-appearance order, not five fixed-order tokens. -/
theorem tasksCtx_categoryStats_not_fixed_five :
    (createTasksContext constParse 0 c5Items none).categoryStats = ["social,1", "academic,1"] ∧
    ¬((createTasksContext constParse 0 c5Items none).categoryStats.length = 5) := by decide

/-- C5 (amended): the analytics encoder `createAnalyticsContext` emits
exactly five `<category>,<count>` tokens in the fixed order academic,
work, personal, health, social, each count being the number of items with
that category across the events-and-tasks partition; the chat encoder
`createTasksContext` instead emits one token per category value actually
present (absent category defaulting to `other`), in first-appearance
order, each with the number of items of that category. -/
theorem categoryStats_fixed_vs_present :
    (∀ tasks, (analyticsCategoryStats tasks).length = 5 ∧
      analyticsCategoryStats tasks = fixedCategories.map fun c =>
        c ++ "," ++ toString (tasks.countP fun i =>
          (isEventType i || isTaskishType i) && i.category == some c)) ∧
    (∀ tasks, tasksCtxCategoryStats tasks =
      (dedupFirst (tasks.map catOrOther)).map fun c =>
        c ++ "," ++ toString (tasks.countP fun t => catOrOther t == c)) := by
  constructor
  · intro tasks
    refine ⟨by simp [analyticsCategoryStats, fixedCategories], ?_⟩
    unfold analyticsCategoryStats
    refine List.map_congr_left fun c hc => ?_
    refine congrArg (fun n => c ++ "," ++ toString n) ?_
    rw [List.filter_append, List.length_append,
      ← List.countP_eq_length_filter, ← List.countP_eq_length_filter,
      List.countP_filter, List.countP_filter]
    have hD : ∀ a ∈ tasks, ¬(((a.category == some c) && isEventType a) = true ∧
        ((a.category == some c) && isTaskishType a) = true) := by
      intro a _ hpq
      obtain ⟨h1, h2⟩ := hpq
      simp only [Bool.and_eq_true] at h1 h2
      exact isEventType_isTaskishType_disjoint a ⟨h1.2, h2.2⟩
    rw [← countP_or_disjoint _ _ _ hD]
    refine List.countP_congr fun a _ => ?_
    cases hcat : (a.category == some c) <;> cases he : isEventType a <;>
      cases ht2 : isTaskishType a <;> simp [hcat, he, ht2]
  · intro tasks
    unfold tasksCtxCategoryStats
    rw [groupFold_spec, List.map_map]
    refine List.map_congr_left fun k hk => ?_
    simp only [Function.comp_apply]
    refine congrArg (fun n => k ++ "," ++ toString n) ?_
    simp only [foldl_count_eq, Nat.zero_add, List.countP_eq_length_filter]

set_option maxRecDepth 40000 in
/-- C6 (counterexample): on one pending high-priority task with an ISO
due-date string, the chat-side encoder `createTasksContext` — one of the
two priority encoders the claim covers — emits a single row for the one
priority present (not four fixed rows) whose deadline list is the RAW
due-date string, not the `HH:MM:SS...` layout; and even in the analytics
encoder the layout writes milliseconds unpadded (`23:59:00.0`, exactly
the example documented in the source's own prompt), not a 3-digit `mmm`
field. -/
theorem tasksCtx_priorityStats_raw_deadlines :
    (createTasksContext constParse 0 c6Items none).priorityStats =
      ["high,1,0,0,2025-09-25T23:59:00.000Z"] ∧
    ¬((createTasksContext constParse 0 c6Items none).priorityStats.length = 4) ∧
    formatDeadline c6SampleParts = "23:59:00.0:25.9:2025" := by decide

/-- C6 (amended): the analytics encoder emits exactly four rows in the
fixed order urgent, high, medium, low, each
`<priority>,<total>,<completed>,<rate>,<deadlines>` with
`rate = round(100 * completed / total)` (0 when the total is 0) and
deadlines gathered only from tasks with a truthy due date, formatted
`H:M:S.ms:D.M:Y` with two-digit hours/minutes/seconds but unpadded
milliseconds, day and month, joined by commas; the chat encoder instead
emits one row per priority value present (default `none`), in
first-appearance order, with the same rounded rate but the raw due-date
strings joined by commas. -/
theorem priorityStats_fixed_vs_present :
    (∀ dateParts tasks, (analyticsPriorityStats dateParts tasks).length = 4 ∧
      analyticsPriorityStats dateParts tasks = fixedPriorities.map fun p =>
        p ++ "," ++
          toString (tasks.countP fun t => (t.priority == some p) && isTaskishType t) ++ "," ++
          toString (tasks.countP fun t =>
            (t.status == some "completed") && ((t.priority == some p) && isTaskishType t)) ++ "," ++
          toString (jsRoundedRate
            (tasks.countP fun t =>
              (t.status == some "completed") && ((t.priority == some p) && isTaskishType t))
            (tasks.countP fun t => (t.priority == some p) && isTaskishType t)) ++ "," ++
          joinSep ","
            (((tasks.filter fun t => (t.priority == some p) && isTaskishType t).filter
                fun t => truthyStr t.dueDate).map
              fun t => formatDeadline (dateParts (t.dueDate.getD "")))) ∧
    (∀ tasks, tasksCtxPriorityStats tasks =
      (dedupFirst (tasks.map prioOrNone)).map fun p =>
        p ++ "," ++ toString (tasks.countP fun t => prioOrNone t == p) ++ "," ++
          toString (tasks.countP fun t =>
            (t.status == some "completed") && (prioOrNone t == p)) ++ "," ++
          toString (jsRoundedRate
            (tasks.countP fun t => (t.status == some "completed") && (prioOrNone t == p))
            (tasks.countP fun t => prioOrNone t == p)) ++ "," ++
          joinSep "," ((tasks.filter fun t => prioOrNone t == p).filterMap fun t =>
            if truthyStr t.dueDate then some (t.dueDate.getD "") else none)) := by
  constructor
  · intro dateParts tasks
    refine ⟨by simp [analyticsPriorityStats, fixedPriorities], ?_⟩
    have hpt : ∀ p, analyticsPriorityTasks tasks p =
        tasks.filter fun t => (t.priority == some p) && isTaskishType t := by
      intro p
      unfold analyticsPriorityTasks analyticsTaskItems
      rw [List.filter_filter]
    have htot : ∀ p, analyticsPriorityTotal tasks p =
        tasks.countP fun t => (t.priority == some p) && isTaskishType t := by
      intro p
      unfold analyticsPriorityTotal
      rw [hpt, List.countP_eq_length_filter]
    have hcomp : ∀ p, analyticsPriorityCompleted tasks p =
        tasks.countP fun t =>
          (t.status == some "completed") && ((t.priority == some p) && isTaskishType t) := by
      intro p
      unfold analyticsPriorityCompleted
      rw [hpt, List.filter_filter, List.countP_eq_length_filter]
    unfold analyticsPriorityStats
    refine List.map_congr_left fun p hp => ?_
    rw [show analyticsPriorityDeadlines dateParts tasks p =
        ((tasks.filter fun t => (t.priority == some p) && isTaskishType t).filter
          fun t => truthyStr t.dueDate).map
          (fun t => formatDeadline (dateParts (t.dueDate.getD ""))) from by
      unfold analyticsPriorityDeadlines
      rw [hpt]]
    rw [joinSep_if_pos]
    unfold analyticsPriorityRate
    rw [htot, hcomp]
  · intro tasks
    unfold tasksCtxPriorityStats
    rw [groupFold_spec, List.map_map]
    refine List.map_congr_left fun p hp => ?_
    simp only [Function.comp_apply, foldl_updatePriorityAgg, Nat.zero_add, List.nil_append]
    rw [joinSep_if_pos]
    rw [show ((tasks.filter fun it => prioOrNone it == p).countP
        fun t => t.status == some "completed") =
        tasks.countP fun t => (t.status == some "completed") && (prioOrNone t == p) from
      List.countP_filter _ _ _]
    rw [List.countP_eq_length_filter (fun t => prioOrNone t == p) tasks]

/-- The week-minutes reduce evaluates to a sum of per-event
contributions. -/
theorem foldl_week_sum (pt : String → Option Int) (l : List ScheduleItem) (q : ℚ) :
    l.foldl (fun total t => match t.startTime.bind pt, t.endTime.bind pt with
      | some s, some e => total + ((e - s : Int) : ℚ) / (1000 * 60)
      | _, _ => total) q =
    q + (l.filterMap fun t => match t.startTime.bind pt, t.endTime.bind pt with
      | some s, some e => some (((e - s : Int) : ℚ) / (1000 * 60))
      | _, _ => none).sum := by
  induction l generalizing q with
  | nil => simp
  | cons x xs ih =>
    rw [List.foldl_cons, List.filterMap_cons]
    cases hs : x.startTime.bind pt with
    | none =>
      simp only [hs]
      rw [ih]
    | some s =>
      cases he : x.endTime.bind pt with
      | none =>
        simp only [hs, he]
        rw [ih]
      | some e =>
        simp only [hs, he]
        rw [ih, List.sum_cons]
        ring

/-- Truthiness follows from parseability when the empty string does not
parse. -/
theorem truthyStr_of_bind_some (pt : String → Option Int) (hEmpty : pt "" = none)
    (o : Option String) (v : Int) (h : o.bind pt = some v) : truthyStr o = true := by
  cases o with
  | none => simp at h
  | some s =>
    have h' : pt s = some v := h
    unfold truthyStr
    by_cases hs : s.isEmpty
    · rw [(String.isEmpty_iff s).mp hs, hEmpty] at h'
      cases h'
    · simp [hs]

/-- Filtering then extracting agrees with a direct extraction when the
per-element contributions agree. -/
theorem filterMap_filter_eq (P : α → Bool) (f g : α → Option γ) (l : List α)
    (h : ∀ a, (if P a then f a else none) = g a) :
    (l.filter P).filterMap f = l.filterMap g := by
  induction l with
  | nil => rfl
  | cons x xs ih =>
    rw [List.filter_cons]
    by_cases hp : P x = true
    · rw [if_pos hp, List.filterMap_cons, List.filterMap_cons]
      have hx := h x
      rw [if_pos hp] at hx
      rw [hx, ih]
    · rw [if_neg hp, List.filterMap_cons]
      have hx := h x
      rw [if_neg hp] at hx
      rw [← hx, ih]

/-- The fallback week-minutes computation agrees with the spec's
formulation — sum of `(endTime - startTime)` minutes over events whose
start falls in the week window — provided the empty string is
unparseable (as `new Date('')` is invalid). -/
theorem fallbackWeekly_eq_spec (pt : String → Option Int) (sow : Int)
    (tasks : List ScheduleItem) (hEmpty : pt "" = none) :
    fallbackWeeklyEventTime pt sow tasks = specWeeklyMinutes pt sow tasks := by
  unfold fallbackWeeklyEventTime specWeeklyMinutes
  rw [foldl_week_sum, zero_add, List.filter_filter]
  congr 1
  apply filterMap_filter_eq
  intro x
  by_cases htype : (x.type == some "event") = true
  · cases hs : x.startTime.bind pt with
    | none => simp [htype, hs]
    | some s =>
      have hts : truthyStr x.startTime = true := truthyStr_of_bind_some pt hEmpty _ _ hs
      cases he : x.endTime.bind pt with
      | none => simp [htype, hs, he, hts]
      | some e =>
        have hte : truthyStr x.endTime = true := truthyStr_of_bind_some pt hEmpty _ _ he
        by_cases hw : sow ≤ s ∧ s ≤ sow + 604799999
        · simp [htype, hs, he, hts, hte, hw, hw.1, hw.2]
        · simp [htype, hs, he, hts, hte, hw, Bool.and_eq_true, decide_eq_true_eq]
  · simp [htype]

/-- The fold of `createTasksContext`'s weekly event time is the plain sum
of `estimatedDuration` (a missing or zero duration contributes 0). -/
theorem foldl_estimated_sum (l : List ScheduleItem) (n : Nat) :
    l.foldl (fun total e =>
      if truthyNum e.estimatedDuration then total + e.estimatedDuration.getD 0 else total) n =
    n + (l.map fun e => e.estimatedDuration.getD 0).sum := by
  induction l generalizing n with
  | nil => simp
  | cons x xs ih =>
    rw [List.foldl_cons, List.map_cons, List.sum_cons]
    cases hd : x.estimatedDuration with
    | none =>
      rw [show (if truthyNum none = true then n + (Option.getD (none : Option Nat) 0) else n) = n
        from by simp [truthyNum]]
      rw [ih]
      simp
    | some k =>
      by_cases hk : k = 0
      · subst hk
        rw [show (if truthyNum (some 0) = true then n + (Option.getD (some 0) 0) else n) = n
          from by simp [truthyNum]]
        rw [ih]
        simp
      · rw [show (if truthyNum (some k) = true then n + (Option.getD (some k) 0) else n) = n + k
          from by simp [truthyNum, hk]]
        rw [ih]
        simp only [Option.getD_some]
        omega

/-- C7 (counterexample): an event carrying only `estimatedDuration = 60`
(no start or end time, so it lies in no week window and has no
`endTime - startTime`) makes `createTasksContext`'s weekly figure 60
while the claimed window-sum is 0: the two cited call sites do not both
compute the claimed quantity. -/
theorem weeklyEventTime_disagrees :
    (createTasksContext constParse 0 c7Items none).weeklyEventTime = 60 ∧
    specWeeklyMinutes constParse 0 c7Items = 0 ∧
    ¬(((createTasksContext constParse 0 c7Items none).weeklyEventTime : ℚ) =
      specWeeklyMinutes constParse 0 c7Items) := by
  refine ⟨by decide, rfl, ?_⟩
  intro h
  rw [show (createTasksContext constParse 0 c7Items none).weeklyEventTime = 60 from by decide,
    show specWeeklyMinutes constParse 0 c7Items = 0 from rfl] at h
  norm_num at h

/-- C7 (amended): the fallback-recommendations call site computes the
weekly figure exactly as the claim states — the sum of
`(endTime - startTime)` in minutes over events whose start falls in the
Sunday-midnight-to-Saturday-end-of-day window — but the chat-context call
site instead sums `estimatedDuration` over ALL events with no week filter
and no use of `endTime - startTime`. -/
theorem weeklyEventTime_call_sites :
    (∀ parseTime startOfWeek tasks, parseTime "" = none →
      fallbackWeeklyEventTime parseTime startOfWeek tasks =
        specWeeklyMinutes parseTime startOfWeek tasks) ∧
    (∀ parseTime now tasks heatmapInfo,
      (createTasksContext parseTime now tasks heatmapInfo).weeklyEventTime =
        ((tasks.filter isEventType).map fun e => e.estimatedDuration.getD 0).sum) := by
  constructor
  · intro pt sow tasks hEmpty
    exact fallbackWeekly_eq_spec pt sow tasks hEmpty
  · intro pt now tasks hm
    unfold createTasksContext
    by_cases h : tasks.isEmpty
    · rw [if_pos h, List.isEmpty_iff.mp h]
      rfl
    · rw [if_neg h]
      show tasksCtxWeeklyEventTime tasks = _
      unfold tasksCtxWeeklyEventTime
      rw [foldl_estimated_sum]
      exact Nat.zero_add _

/-- Witness for `weeklyEventTime_call_sites`: the two formulations agree
on the concrete no-timestamp event under the nothing-parses oracle. -/
theorem weeklyEventTime_call_sites_witness :
    constParse "" = none ∧
    fallbackWeeklyEventTime constParse 0 c7Items = specWeeklyMinutes constParse 0 c7Items :=
  ⟨rfl, weeklyEventTime_call_sites.1 constParse 0 c7Items rfl⟩

/-- The rounded rate never exceeds 100 when the completed count is within
the total. -/
theorem jsRoundedRate_le_100 (c t : Nat) (h : c ≤ t) : jsRoundedRate c t ≤ 100 := by
  unfold jsRoundedRate
  split
  · omega
  · rename_i ht
    have h2t : 0 < 2 * t := by omega
    have hlt : (200 * c + t) / (2 * t) < 101 := by
      rw [Nat.div_lt_iff_lt_mul h2t]
      omega
    omega

/-- The integer formula of `jsRoundedRate` is exactly
`Math.round((c / t) * 100)` over exact rationals. -/
theorem jsRoundedRate_eq_round (c t : Nat) (ht : t ≠ 0) :
    (jsRoundedRate c t : Int) = round (((c : ℚ) / (t : ℚ)) * 100) := by
  have h2t : 0 < 2 * t := by omega
  have h1 := Nat.div_add_mod (200 * c + t) (2 * t)
  have h2 := Nat.mod_lt (200 * c + t) h2t
  have hlow : (2 * t) * ((200 * c + t) / (2 * t)) ≤ 200 * c + t := by omega
  have hhigh : 200 * c + t < (2 * t) * ((200 * c + t) / (2 * t)) + (2 * t) := by omega
  have htQ : (t : ℚ) ≠ 0 := by exact_mod_cast ht
  have hx : ((c : ℚ) / (t : ℚ)) * 100 + 1 / 2 =
      ((200 * c + t : ℕ) : ℚ) / ((2 * t : ℕ) : ℚ) := by
    push_cast
    field_simp
    ring
  rw [round_eq, hx]
  have hBpos : (0 : ℚ) < ((2 * t : ℕ) : ℚ) := by
    have h0 : (0 : ℕ) < 2 * t := h2t
    exact_mod_cast h0
  unfold jsRoundedRate
  rw [if_neg ht]
  have hlow' : ((200 * c + t) / (2 * t)) * (2 * t) ≤ 200 * c + t := by
    rw [Nat.mul_comm]
    exact hlow
  have hmul : ((200 * c + t) / (2 * t) + 1) * (2 * t) =
      (2 * t) * ((200 * c + t) / (2 * t)) + 2 * t := by ring
  have hhigh' : 200 * c + t < ((200 * c + t) / (2 * t) + 1) * (2 * t) := by omega
  refine Eq.symm (Int.floor_eq_iff.mpr ⟨?_, ?_⟩)
  · rw [le_div_iff₀ hBpos]
    exact_mod_cast hlow'
  · rw [div_lt_iff₀ hBpos]
    exact_mod_cast hhigh'

/-- C8 (counterexample): the analytics context's overall `completionRate`
divides the CALLER-SUPPLIED completed count by the locally counted task
total without rounding or clamping: with one task and a claimed 2
completions it is 200, outside [0, 100]. -/
theorem analytics_completionRate_not_bounded :
    (createAnalyticsContext (fun _ => {}) c8Tasks c8Stats none none).completionRate = 200 ∧
    ¬((createAnalyticsContext (fun _ => {}) c8Tasks c8Stats none none).completionRate ≤ 100) := by
  have h1 : (createAnalyticsContext (fun _ => {}) c8Tasks c8Stats none none).completionRate =
      analyticsCompletionRate 2 c8Tasks := rfl
  have hlen : (analyticsTaskItems c8Tasks).length = 1 := by decide
  have h2 : analyticsCompletionRate 2 c8Tasks = ((2 : ℚ) / 1) * 100 := by
    unfold analyticsCompletionRate
    rw [hlen]
    norm_num
  rw [h1, h2]
  norm_num

/-- C8 (amended): every rounded percentage — the per-priority completion
rates at both encoders and the tasks-context `productivityScore` /
`completionRate` — is a natural number at most 100 (hence an integer in
[0, 100]), and the rounding formula agrees with `Math.round` on exact
rationals; but the analytics context's overall `completionRate` is
unrounded and unclamped, equal to `100 * completedTasks / totalTasks`
with a caller-supplied numerator. -/
theorem percentage_bounds :
    (∀ completed total, completed ≤ total → jsRoundedRate completed total ≤ 100) ∧
    (∀ completed total, total ≠ 0 →
      (jsRoundedRate completed total : Int) = round (((completed : ℚ) / (total : ℚ)) * 100)) ∧
    (∀ parseTime now tasks heatmapInfo,
      (createTasksContext parseTime now tasks heatmapInfo).productivityScore ≤ 100 ∧
      (createTasksContext parseTime now tasks heatmapInfo).completionRate ≤ 100) ∧
    (∀ tasks priority, analyticsPriorityRate tasks priority ≤ 100) ∧
    (∀ completedTasks tasks, (analyticsTaskItems tasks).length ≠ 0 →
      analyticsCompletionRate completedTasks tasks =
        ((completedTasks : ℚ) / ((analyticsTaskItems tasks).length : ℚ)) * 100) := by
  refine ⟨jsRoundedRate_le_100, jsRoundedRate_eq_round, ?_, ?_, ?_⟩
  · intro pt now tasks hm
    unfold createTasksContext
    by_cases h : tasks.isEmpty
    · rw [if_pos h]
      exact ⟨Nat.zero_le _, Nat.zero_le _⟩
    · rw [if_neg h]
      exact ⟨jsRoundedRate_le_100 _ _ (List.length_filter_le _ _),
        jsRoundedRate_le_100 _ _ (List.length_filter_le _ _)⟩
  · intro tasks priority
    unfold analyticsPriorityRate analyticsPriorityCompleted analyticsPriorityTotal
    exact jsRoundedRate_le_100 _ _ (List.length_filter_le _ _)
  · intro completedTasks tasks hne
    unfold analyticsCompletionRate
    rw [if_pos (Nat.pos_of_ne_zero hne)]

/-- Witness for `percentage_bounds`: one of three completed rounds to an
in-range percentage. -/
theorem percentage_bounds_witness :
    1 ≤ 3 ∧ jsRoundedRate 1 3 ≤ 100 :=
  ⟨by decide, percentage_bounds.1 1 3 (by decide)⟩

/-- Every fallback-recommendation list is an opening time entry, an
optional deadline entry, an optional preference entry, and a closing
time-management or technique entry. -/
theorem generateFallbackRecommendations_shape (pt : String → Option Int) (sow : Int)
    (tasks : List ScheduleItem) (stats : TaskStats) (acc : Option TimeAccuracy) (lang : String) :
    ∃ t dl pref c,
      generateFallbackRecommendations pt sow tasks stats acc lang = [t] ++ dl ++ pref ++ [c] ∧
      t ∈ timeOpeners ∧ c ∈ closingRecs := by
  by_cases hvi : lang = "vi"
  · simp only [generateFallbackRecommendations, hvi, if_true, eq_self_iff_true]
    refine ⟨_, _, _, _, rfl, ?_, ?_⟩
    · split
      · simp [timeOpeners]
      · split <;> simp [timeOpeners]
    · split <;> simp [closingRecs]
  · simp only [generateFallbackRecommendations, hvi, if_false]
    refine ⟨_, _, _, _, rfl, ?_, ?_⟩
    · split
      · simp [timeOpeners]
      · split <;> simp [timeOpeners]
    · split <;> simp [closingRecs]

/-- C10: the fallback generator always yields at least two entries — an
opening time-usage entry and a closing technique or time-management entry
— the parsing stage returns it whenever no line matches a label and no
line carries a marker emoji, the parsing stage never returns an empty
list, and hence the recommendations endpoint never responds with an
empty list. -/
theorem recommendations_never_empty :
    (∀ parseTime startOfWeek tasks taskStats timeAccuracy language,
      2 ≤ (generateFallbackRecommendations parseTime startOfWeek tasks taskStats timeAccuracy
        language).length ∧
      (∃ t rest, generateFallbackRecommendations parseTime startOfWeek tasks taskStats timeAccuracy
        language = t :: rest ∧ t ∈ timeOpeners) ∧
      (∃ c, (generateFallbackRecommendations parseTime startOfWeek tasks taskStats timeAccuracy
        language).getLast? = some c ∧ c ∈ closingRecs)) ∧
    (∀ parseTime startOfWeek text language,
      recLabeledLines text = [] → recEmojiLines text = [] →
      parseRecommendations parseTime startOfWeek text language =
        generateFallbackRecommendations parseTime startOfWeek [] {} (some {}) language) ∧
    (∀ parseTime startOfWeek text language,
      parseRecommendations parseTime startOfWeek text language ≠ []) ∧
    (∀ parseTime startOfWeek outcome tasks taskStats timeAccuracy language,
      (recommendationsHandler parseTime startOfWeek outcome tasks taskStats timeAccuracy
        language).recommendations ≠ []) := by
  have hmain : ∀ (pt : String → Option Int) (sow : Int) tasks stats acc lang,
      2 ≤ (generateFallbackRecommendations pt sow tasks stats acc lang).length ∧
      (∃ t rest, generateFallbackRecommendations pt sow tasks stats acc lang = t :: rest ∧
        t ∈ timeOpeners) ∧
      (∃ c, (generateFallbackRecommendations pt sow tasks stats acc lang).getLast? = some c ∧
        c ∈ closingRecs) := by
    intro pt sow tasks stats acc lang
    obtain ⟨t, dl, pref, c, heq, ht, hc⟩ :=
      generateFallbackRecommendations_shape pt sow tasks stats acc lang
    refine ⟨?_, ⟨t, dl ++ pref ++ [c], by simp [heq], ht⟩, ⟨c, ?_, hc⟩⟩
    · rw [heq]
      simp [List.length_append]
      omega
    · rw [heq]
      have hform : [t] ++ dl ++ pref ++ [c] = (t :: (dl ++ pref)) ++ [c] := by simp
      rw [hform, List.getLast?_concat]
  have hne : ∀ (pt : String → Option Int) (sow : Int) tasks stats acc lang,
      generateFallbackRecommendations pt sow tasks stats acc lang ≠ [] := by
    intro pt sow tasks stats acc lang hq
    have := (hmain pt sow tasks stats acc lang).1
    rw [hq] at this
    simp at this
  have hparse : ∀ (pt : String → Option Int) (sow : Int) text lang,
      parseRecommendations pt sow text lang ≠ [] := by
    intro pt sow text lang
    by_cases h1 : (recLabeledLines text).isEmpty
    · by_cases h2 : (recEmojiLines text).isEmpty
      · simp only [parseRecommendations, h1, h2, if_true]
        exact hne pt sow [] {} (some {}) lang
      · simp only [parseRecommendations, h1, h2, if_true, Bool.false_eq_true, if_false]
        intro hq
        rw [hq] at h2
        simp at h2
    · simp only [parseRecommendations, h1, Bool.false_eq_true, if_false]
      intro hq
      rw [hq] at h1
      simp at h1
  refine ⟨hmain, ?_, hparse, ?_⟩
  · intro pt sow text lang h1 h2
    simp only [parseRecommendations, h1, h2, List.isEmpty_nil, if_true]
  · intro pt sow outcome tasks stats acc lang
    cases outcome with
    | ok text => exact hparse pt sow text lang
    | err => exact hne pt sow tasks stats acc lang

/-- Witness for `recommendations_never_empty`: a plain greeting reply has
no labeled or emoji lines, so parsing returns the fallback list. -/
theorem recommendations_never_empty_witness :
    recLabeledLines "Hôm nay trời đẹp quá" = [] ∧
    parseRecommendations constParse 0 "Hôm nay trời đẹp quá" "vi" =
      generateFallbackRecommendations constParse 0 [] {} (some {}) "vi" := by
  refine ⟨by decide, ?_⟩
  exact recommendations_never_empty.2.1 constParse 0 "Hôm nay trời đẹp quá" "vi"
    (by decide) (by decide)

/-- Witness for `chatExtraction_first_block_only`: a reply with no fenced
block extracts nothing, and indeed holds no block. -/
theorem chatExtraction_first_block_only_witness :
    (chatExtractJson "Chào bạn, mình đã hiểu!").isNone = true ∧
    fencedJsonBlocks "Chào bạn, mình đã hiểu!" = [] := by
  refine ⟨by decide, ?_⟩
  exact chatExtraction_first_block_only.1 "Chào bạn, mình đã hiểu!" (by decide)
